import Mathlib

/-!
# Verification of the fbchat-muqit realtime session engine

A shallow embedding, in Lean 4, of the parts of the `fbchat_muqit` Python
package that its specification makes claims about: the event dispatcher
(`events/dispatcher.py`), the MQTT cursor tracker and bootstrap publisher
(`muqit.py`), the request correlator (`messenger/client.py`,
`client.py`), and the delta decoding pipeline
(`models/deltas/parser.py` with its `msgspec` struct models).

Python values decoded from JSON are modelled by the inductive type
`Muqit.Json`; Python dictionaries become association lists (preserving
insertion order, as Python dicts do), exceptions become `Except`, and
`async` control flow is modelled by explicit state passing and by action
traces for the straight-line task-management code.
-/

namespace Muqit

/-- A JSON-decoded Python value (the result of `json.loads` /
`msgspec.json.decode` without a type): `None`, `bool`, `int`, `str`,
`list`, `dict`.  JSON numbers are modelled as integers; none of the
verified code paths depends on float payloads. -/
inductive Json where
  | null : Json
  | bool (b : Bool) : Json
  | num (n : Int) : Json
  | str (s : String) : Json
  | arr (xs : List Json) : Json
  | obj (m : List (String × Json)) : Json
deriving Repr

/-- The single-quote character, used by Python `repr` of strings. -/
def sq : String := String.singleton (Char.ofNat 39)

/-- Opening brace character (Python dict repr). -/
def lbrace : Char := Char.ofNat 123

/-- Closing brace character (Python dict repr). -/
def rbrace : Char := Char.ofNat 125

/-- Python `repr` of a JSON-decoded value (`repr` and `str` agree on
containers; on strings `repr` adds quotes).  String escaping inside
`repr` is not reproduced; no verified claim depends on it. -/
def pyRepr : Json → String
  | .null => "None"
  | .bool b => cond b "True" "False"
  | .num n => toString n
  | .str s => sq ++ s ++ sq
  | .arr xs => "[" ++ String.intercalate ", " (xs.attach.map (fun x => pyRepr x.1)) ++ "]"
  | .obj m =>
      String.singleton lbrace ++
        String.intercalate ", "
          (m.attach.map (fun kv => sq ++ kv.1.1 ++ sq ++ ": " ++ pyRepr kv.1.2)) ++
        String.singleton rbrace
decreasing_by
  · have := List.sizeOf_lt_of_mem x.2
    simp [Json.arr.sizeOf_spec]
    omega
  · obtain ⟨⟨k, v⟩, hmem⟩ := kv
    have h1 := List.sizeOf_lt_of_mem hmem
    simp [Json.obj.sizeOf_spec, Prod.mk.sizeOf_spec] at h1 ⊢
    omega

/-- `parser.unwrap_to_str` (parser.py:111-115).  Repeatedly takes the
first value of a non-empty dict, then renders the reached leaf: a string
is returned as-is, `None` becomes `""`, anything else goes through
Python `str`. -/
def unwrap_to_str : Json → String
  | .obj ((_, v) :: _) => unwrap_to_str v
  | .str s => s
  | .null => ""
  | j => pyRepr j
termination_by structural j => j

/-- The condition of the `while` loop in `unwrap_to_str`:
`isinstance(obj, dict) and obj`, returning the first value when it holds. -/
def firstValue? : Json → Option Json
  | .obj ((_, v) :: _) => some v
  | _ => none

/-- The `while` loop of `unwrap_to_str` modelled literally with explicit
fuel: descend into the first value while the value is a non-empty dict;
`none` means the fuel ran out before the loop exited. -/
def unwrap_loop : Nat → Json → Option Json
  | fuel, j =>
    match firstValue? j with
    | none => some j
    | some v =>
      match fuel with
      | 0 => none
      | f + 1 => unwrap_loop f v

/-- The statement after the `while` loop of `unwrap_to_str`. -/
def unwrap_finish : Json → String
  | .str s => s
  | .null => ""
  | j => pyRepr j

/-- Length of the first-value chain of a JSON value: the number of
iterations the `unwrap_to_str` loop performs on it. -/
def chainDepth : Json → Nat
  | .obj ((_, v) :: _) => chainDepth v + 1
  | _ => 0
termination_by structural j => j

/-- The leaf the `unwrap_to_str` loop reaches: the end of the
first-value chain. -/
def chainEnd : Json → Json
  | .obj ((_, v) :: _) => chainEnd v
  | j => j
termination_by structural j => j

/-- `MessageParser.extract_value` (parser.py:219-248), restricted to the
`Value` semantic type: a `str` or `dict` encoding is normalized through
`unwrap_to_str`; any other shape falls through the hook unchanged (and
is then rejected by the typed decoder), modelled as `none`. -/
def extract_value_Value : Json → Option String
  | .str s => some (unwrap_to_str (.str s))
  | .obj m => some (unwrap_to_str (.obj m))
  | _ => none

/-! ## Cursor tracker (`muqit.py`) -/

/-- The resumption state of `Mqtt`: `_sequence_id` and `_sync_token`
(muqit.py:48,53). -/
structure Cursor where
  sequence_id : Nat
  sync_token : Option String
deriving DecidableEq, Repr

/-- The three regex search results of `Mqtt.extract_meta`
(muqit.py:245-249): `first_re`, `last_re` and `sync_re` applied to the
raw frame, each `none` when the pattern does not occur. -/
structure FrameIds where
  firstDeltaSeqId : Option Nat
  lastIssuedSeqId : Option Nat
  syncToken : Option String
deriving DecidableEq, Repr

/-- Python truthiness of an optional int: `None` and `0` are falsy. -/
def truthyNat : Option Nat → Option Nat
  | some n => if n = 0 then none else some n
  | none => none

/-- Python truthiness of an optional string: `None` and `""` are falsy. -/
def truthyStr : Option String → Option String
  | some s => if s = "" then none else some s
  | none => none

/-- `Mqtt.extract_meta` (muqit.py:243-253) after the regex scan:
`self._sequence_id = ids["lastIssuedSeqId"] or ids["firstDeltaSeqId"] or self._sequence_id`
and `self._sync_token = ids["syncToken"] or self._sync_token`,
with Python `or` (falsy values are skipped). -/
def extract_meta (c : Cursor) (ids : FrameIds) : Cursor :=
  { sequence_id :=
      ((truthyNat ids.lastIssuedSeqId).orElse fun _ => truthyNat ids.firstDeltaSeqId).getD
        c.sequence_id,
    sync_token := (truthyStr ids.syncToken).orElse fun _ => c.sync_token }

/-- Python regex whitespace class for the byte patterns of `extract_meta`. -/
def pyWs (c : Char) : Bool :=
  c = ' ' || c = Char.ofNat 9 || c = Char.ofNat 10 || c = Char.ofNat 13 ||
    c = Char.ofNat 12 || c = Char.ofNat 11

/-- Numeric value of a list of decimal digit characters. -/
def digitsToNat (ds : List Char) : Nat :=
  ds.foldl (fun a c => a * 10 + (c.toNat - 48)) 0

/-- Try to match a pattern of the regex shape `LIT\s*(\d+)` at the head
of `s`: the literal `pat`, optional whitespace, one or more digits. -/
def tryNumAt (pat s : List Char) : Option Nat :=
  if pat.isPrefixOf s then
    let rest := (s.drop pat.length).dropWhile pyWs
    let ds := rest.takeWhile Char.isDigit
    if ds.isEmpty then none else some (digitsToNat ds)
  else none

/-- `re.search` for a pattern of the shape `LIT\s*(\d+)`: the value at
the leftmost position where the whole pattern matches
(`Mqtt.first_re.search` / `Mqtt.last_re.search`, muqit.py:67-68). -/
def searchNum (pat : List Char) : List Char → Option Nat
  | [] => none
  | c :: t =>
    match tryNumAt pat (c :: t) with
    | some n => some n
    | none => searchNum pat t

/-- Try to match `LIT\s*"([^"]+)"` at the head of `s`. -/
def tryTokAt (pat s : List Char) : Option String :=
  if pat.isPrefixOf s then
    let rest := (s.drop pat.length).dropWhile pyWs
    match rest with
    | '"' :: r2 =>
      let tok := r2.takeWhile (fun c => c ≠ '"')
      if tok.isEmpty then none
      else
        match r2.drop tok.length with
        | '"' :: _ => some (String.mk tok)
        | _ => none
    | _ => none
  else none

/-- `re.search` for `Mqtt.sync_re` (muqit.py:70). -/
def searchTok (pat : List Char) : List Char → Option String
  | [] => none
  | c :: t =>
    match tryTokAt pat (c :: t) with
    | some n => some n
    | none => searchTok pat t

/-- Literal part of `Mqtt.first_re`. -/
def firstPat : List Char := "\"firstDeltaSeqId\":".data

/-- Literal part of `Mqtt.last_re`. -/
def lastPat : List Char := "\"lastIssuedSeqId\":".data

/-- Literal part of `Mqtt.sync_re`. -/
def syncPat : List Char := "\"syncToken\":".data

/-- The regex scan of `Mqtt.extract_meta` (muqit.py:245-249) on a raw
frame. -/
def scanFrame (raw : List Char) : FrameIds :=
  { firstDeltaSeqId := searchNum firstPat raw,
    lastIssuedSeqId := searchNum lastPat raw,
    syncToken := searchTok syncPat raw }

/-- `Mqtt.extract_meta` applied to the raw frame bytes. -/
def extract_meta_raw (c : Cursor) (raw : List Char) : Cursor :=
  extract_meta c (scanFrame raw)

/-- Byte-level substring test (`b'...' in payload`). -/
def containsSub (pat : List Char) : List Char → Bool
  | [] => pat.isEmpty
  | c :: t => pat.isPrefixOf (c :: t) || containsSub pat t

/-- The cursor-update step of `Mqtt.listen` (muqit.py:266-267):
`extract_meta` runs only when one of the three marker substrings occurs
in the payload. -/
def listen_cursor_step (c : Cursor) (raw : List Char) : Cursor :=
  if containsSub "lastIssuedSeqId".data raw || containsSub "firstDeltaSeqId".data raw ||
      containsSub "syncToken".data raw then
    extract_meta_raw c raw
  else c

/-- A concrete raw frame used as a counterexample input: it matches
both `last_re` (value 0) and `first_re` (value 7). -/
def c2raw : List Char := "\"lastIssuedSeqId\": 0, \"firstDeltaSeqId\": 7".data

/-! ## Queue bootstrap publish (`muqit.py`) -/

/-- A value in a bootstrap control payload. -/
inductive PValue where
  | str (s : String)
  | num (n : Nat)
  | null
deriving DecidableEq, Repr

/-- `Mqtt._messenger_queue_publish` (muqit.py:223-241): the topic and
the ordered field list of the single control message, chosen by whether
a `syncToken` is stored. -/
def messenger_queue_publish (user_id : String) (c : Cursor) :
    String × List (String × PValue) :=
  let common : List (String × PValue) :=
    [("sync_api_version", .num 10),
     ("max_deltas_able_to_process", .num 1000),
     ("delta_batch_size", .num 500),
     ("encoding", .str "JSON"),
     ("entity_fbid", .str user_id)]
  match c.sync_token with
  | none =>
    ("/messenger_sync_create_queue",
      common ++ [("initial_titan_sequence_id", .str (toString c.sequence_id)),
                 ("device_params", .null)])
  | some t =>
    ("/messenger_sync_get_diffs",
      common ++ [("last_seq_id", .str (toString c.sequence_id)),
                 ("sync_token", .str t)])

/-- The bootstrap publishes performed by the success branch of
`Mqtt.connect` (muqit.py:118-121): one `_messenger_queue_publish` when
`is_connected()` reports true, none otherwise. -/
def connect_publishes (is_connected : Bool) (user_id : String) (c : Cursor) :
    List (String × List (String × PValue)) :=
  if is_connected then [messenger_queue_publish user_id c] else []

/-! ## Reconnect supervisor (`muqit.py`) -/

/-- One step performed by `Mqtt._reconnect` (muqit.py:371-414), in
program order. -/
inductive RAct where
  | cancel_listen_task
  | cancel_presence_task
  | disconnect_old
  | sleep_delay
  | regen_client_id
  | fetch_sequence_id
  | build_new_client
  | open_transport
  | clear_sync_token
  | publish_bootstrap
  | start_listen_task
  | start_presence_task
deriving DecidableEq, Repr

/-- The session-level mutable fields of `Mqtt` touched by reconnect. -/
structure MqttState where
  sequence_id : Nat
  sync_token : Option String
  running : Bool
  reconnecting : Bool
deriving DecidableEq, Repr

/-- Result of one run of `Mqtt._reconnect`: the final field values, the
ordered action trace, and the control messages published. -/
structure ReconnectResult where
  state : MqttState
  trace : List RAct
  published : List (String × List (String × PValue))
deriving DecidableEq, Repr

/-- `Mqtt._reconnect` (muqit.py:371-414).  `fetched_seq` is the value
returned by the HTTP baseline call `_fetch_sequence_id`;
`is_connected` is what `self._mqttClient._client.is_connected()`
reports after the transport is rebuilt and re-entered.  The sync token
is cleared, the bootstrap published and the listen/presence tasks
restarted only inside the `is_connected()` branch. -/
def reconnect (st : MqttState) (user_id : String) (fetched_seq : Nat)
    (is_connected : Bool) : ReconnectResult :=
  let pre : List RAct :=
    [.cancel_listen_task, .cancel_presence_task, .disconnect_old, .sleep_delay,
     .regen_client_id, .fetch_sequence_id, .build_new_client, .open_transport]
  let st1 : MqttState := { st with sequence_id := fetched_seq, reconnecting := true }
  if is_connected then
    let st2 : MqttState := { st1 with sync_token := none }
    { state := { st2 with reconnecting := false },
      trace := pre ++ [.clear_sync_token, .publish_bootstrap, .start_listen_task,
                       .start_presence_task],
      published := [messenger_queue_publish user_id ⟨fetched_seq, none⟩] }
  else
    { state := { st1 with reconnecting := false },
      trace := pre,
      published := [] }

/-! ## Event dispatcher (`events/dispatcher.py`) -/

namespace EventDispatcher

/-- What a registered listener does when awaited: return normally, or
raise an exception (which `dispatch` catches and logs). -/
inductive ListenerBeh where
  | ok
  | raises
deriving DecidableEq, Repr

/-- The `for listener in self._event_listeners[event_name]` loop of
`EventDispatcher.dispatch` (dispatcher.py:161-166): each listener is
awaited in turn; a normal return executes `return` (leaving `dispatch`
entirely), an exception is caught, logged, and the loop continues.
Returns the listeners invoked (by their registration index) and whether
some listener returned normally. -/
def runListeners : List (Nat × ListenerBeh) → List Nat × Bool
  | [] => ([], false)
  | (i, .ok) :: _ => ([i], true)
  | (i, .raises) :: rest =>
    let r := runListeners rest
    (i :: r.1, r.2)

/-- Observable outcome of one `dispatch` call: which listeners were
invoked and whether the convention-based `on_<kind>` method was
invoked. -/
structure DispatchLog where
  invoked : List Nat
  fallback_invoked : Bool
deriving DecidableEq, Repr

/-- `EventDispatcher.dispatch` (dispatcher.py:156-174) for one event
kind.  `listeners` is `self._event_listeners.get(event_name)` (`none`
when the kind has no entry in the dict); `fallback_exists` is
`hasattr(self, f"on_{event_name.value}")`.  The fallback lookup runs
whenever the listener loop completes without a normal listener return. -/
def dispatch (listeners : Option (List (Nat × ListenerBeh)))
    (fallback_exists : Bool) : DispatchLog :=
  match listeners with
  | some ls =>
    let r := runListeners ls
    if r.2 then { invoked := r.1, fallback_invoked := false }
    else { invoked := r.1, fallback_invoked := fallback_exists }
  | none => { invoked := [], fallback_invoked := fallback_exists }

/-- `EventDispatcher.add_listener` (dispatcher.py:125-136): create the
kind's list if absent, then append. -/
def add_listener (listeners : Option (List (Nat × ListenerBeh)))
    (cb : Nat × ListenerBeh) : Option (List (Nat × ListenerBeh)) :=
  some (listeners.getD [] ++ [cb])

/-- Spec-side description (for the amended claim): the prefix of
listeners the dispatch loop invokes — every listener up to and
including the first one that returns normally. -/
def invokedUntilFirstOk : List (Nat × ListenerBeh) → List Nat
  | [] => []
  | (i, .ok) :: _ => [i]
  | (i, .raises) :: rest => i :: invokedUntilFirstOk rest

/-- Whether some registered listener returns normally. -/
def anyOk (ls : List (Nat × ListenerBeh)) : Bool :=
  ls.any fun p => match p.2 with | .ok => true | .raises => false

end EventDispatcher

/-! ## Request correlator (`messenger/client.py`, `client.py`) -/

namespace Correlator

/-- The response envelope decoded from the `/ls_resp` topic
(`LSResp` in `models/mqtt_response/response.py`): `request_id` plus the
inner payload string. -/
structure LSResp where
  request_id : Int
  payload : String
deriving DecidableEq, Repr

/-- Outcome of `MessengerClient._send_request` as seen by the caller. -/
inductive SendResult where
  | timeout
  | resolved (r : LSResp)
deriving DecidableEq, Repr

/-- Observable record of one `_send_request` call. -/
structure SendRecord where
  published : Bool
  pending_during_wait : List Int
  result : SendResult
  pending_after : List Int
deriving DecidableEq, Repr

/-- `MessengerClient._send_request` (messenger/client.py:83-94),
interleaved with the `/ls_resp` handler that may resolve it.  The
future is registered in `_pending_requests` first; the payload is
published only when `self._mqtt` is set; then the caller awaits.
`arrival = some payload` means a response frame carrying this request's
id reached `Client._handle_mqtt_messages` before the timeout (the
handler pops the entry and resolves the future); `arrival = none`
means no such frame arrived, so `asyncio.wait_for` times out and the
`except` branch pops the entry and raises `TimeoutError`. -/
def send_request (pending : List Int) (request_id : Int) (mqtt_attached : Bool)
    (arrival : Option String) : SendRecord :=
  let pending1 := pending ++ [request_id]
  match arrival with
  | some pl =>
    { published := mqtt_attached,
      pending_during_wait := pending1,
      result := .resolved ⟨request_id, pl⟩,
      pending_after := pending1.erase request_id }
  | none =>
    { published := mqtt_attached,
      pending_during_wait := pending1,
      result := .timeout,
      pending_after := pending1.erase request_id }

/-- The `/ls_resp` branch of `Client._handle_mqtt_messages`
(client.py:194-200): `self._pending_requests.pop(data.request_id, None)`
then resolve the future if one was found.  Returns the new pending map
and the id of the waiter resolved (`none` = frame discarded silently). -/
def handle_response (pending : List Int) (resp : LSResp) : List Int × Option Int :=
  if resp.request_id ∈ pending then
    (pending.erase resp.request_id, some resp.request_id)
  else (pending, none)

end Correlator

/-! ## Shutdown (`muqit.py`, `client.py`) -/

/-- One step performed while stopping the session. -/
inductive StopAct where
  | cancel_listen
  | cancel_reconnect
  | cancel_presence
  | close_transport
  | cancel_realtime_listen
  | fail_waiter (id : Nat)
deriving DecidableEq, Repr

/-- `Mqtt._cancel_task` (muqit.py:346-353): cancels only a task that
exists and is not done. -/
def cancel_task (active : Bool) (a : StopAct) : List StopAct :=
  if active then [a] else []

/-- `Mqtt.stop` (muqit.py:356-368): cancel `_listen_task`, then
`_reconnect_task`, then `_presence_task`, then disconnect the MQTT
client. -/
def mqtt_stop (listen_active reconnect_active presence_active : Bool) : List StopAct :=
  cancel_task listen_active .cancel_listen ++
    cancel_task reconnect_active .cancel_reconnect ++
    cancel_task presence_active .cancel_presence ++ [.close_transport]

/-- `Client.stop_listening` (client.py:148-157): `Mqtt.stop`, then the
realtime client's stop; the correlator's `_pending_requests` map is
never touched, so its waiters are returned unchanged. -/
def stop_listening (listen_active reconnect_active presence_active : Bool)
    (pending : List Int) : List StopAct × List Int :=
  (mqtt_stop listen_active reconnect_active presence_active ++ [.cancel_realtime_listen],
    pending)

/-! ## JSON text decoding

A fuel-based recursive-descent parser modelling `json.loads` /
`msgspec.json.decode` on payload bytes.  Scope notes: numbers are
parsed as integers (no float payload reaches the verified paths),
string escape sequences are rejected rather than decoded, and the fuel
is generous enough for every concrete payload considered; parse
failures model `JSONDecodeError` / `msgspec.DecodeError`. -/

/-- JSON whitespace. -/
def jsonWs (c : Char) : Bool :=
  c = ' ' || c = Char.ofNat 9 || c = Char.ofNat 10 || c = Char.ofNat 13

mutual

/-- Parse one JSON value at the head of `s` (after optional whitespace),
returning it with the unconsumed remainder. -/
def pValue : Nat → List Char → Except String (Json × List Char)
  | 0, _ => .error "fuel exhausted"
  | fuel + 1, s =>
    match s.dropWhile jsonWs with
    | [] => .error "unexpected end of input"
    | c :: rest =>
      if c = '"' then
        let tok := rest.takeWhile fun d => d ≠ '"' && d ≠ '\\'
        match rest.drop tok.length with
        | '"' :: r2 => .ok (.str (String.mk tok), r2)
        | _ => .error "unterminated or escaped string"
      else if c = '[' then
        match rest.dropWhile jsonWs with
        | ']' :: r2 => .ok (.arr [], r2)
        | r1 => pElems fuel r1 []
      else if c = lbrace then
        match rest.dropWhile jsonWs with
        | [] => .error "unterminated object"
        | c2 :: r2 => if c2 = rbrace then .ok (.obj [], r2) else pMembers fuel (c2 :: r2) []
      else if c = 't' then
        if "rue".data.isPrefixOf rest then .ok (.bool true, rest.drop 3)
        else .error "bad literal"
      else if c = 'f' then
        if "alse".data.isPrefixOf rest then .ok (.bool false, rest.drop 4)
        else .error "bad literal"
      else if c = 'n' then
        if "ull".data.isPrefixOf rest then .ok (.null, rest.drop 3)
        else .error "bad literal"
      else if c = '-' then
        let ds := rest.takeWhile Char.isDigit
        if ds.isEmpty then .error "bad number"
        else .ok (.num (-(digitsToNat ds : Int)), rest.drop ds.length)
      else if c.isDigit then
        let ds := (c :: rest).takeWhile Char.isDigit
        .ok (.num (digitsToNat ds : Int), (c :: rest).drop ds.length)
      else .error "unexpected character"

/-- Parse the elements of a non-empty JSON array. -/
def pElems : Nat → List Char → List Json → Except String (Json × List Char)
  | 0, _, _ => .error "fuel exhausted"
  | fuel + 1, s, acc =>
    match pValue fuel s with
    | .error e => .error e
    | .ok (v, r) =>
      match r.dropWhile jsonWs with
      | ',' :: r2 => pElems fuel r2 (acc ++ [v])
      | ']' :: r2 => .ok (.arr (acc ++ [v]), r2)
      | _ => .error "expected comma or end of array"

/-- Parse the members of a non-empty JSON object, starting at a key. -/
def pMembers : Nat → List Char → List (String × Json) →
    Except String (Json × List Char)
  | 0, _, _ => .error "fuel exhausted"
  | fuel + 1, s, acc =>
    match s.dropWhile jsonWs with
    | '"' :: rest =>
      let tok := rest.takeWhile fun d => d ≠ '"' && d ≠ '\\'
      match rest.drop tok.length with
      | '"' :: r2 =>
        match r2.dropWhile jsonWs with
        | ':' :: r4 =>
          match pValue fuel r4 with
          | .error e => .error e
          | .ok (v, r5) =>
            match r5.dropWhile jsonWs with
            | ',' :: r7 => pMembers fuel r7 (acc ++ [(String.mk tok, v)])
            | c :: r7 =>
              if c = rbrace then .ok (.obj (acc ++ [(String.mk tok, v)]), r7)
              else .error "expected comma or end of object"
            | [] => .error "unterminated object"
        | _ => .error "expected colon"
      | _ => .error "bad key string"
    | _ => .error "expected key"

end

/-- `json.loads` / `msgspec.json.decode` on a payload string. -/
def parse_json (s : String) : Except String Json :=
  match pValue (4 * s.data.length + 16) s.data with
  | .error e => .error e
  | .ok (v, rest) =>
    if (rest.dropWhile jsonWs).isEmpty then .ok v else .error "trailing data"

/-! ## Typed decoding helpers (modelling `msgspec` struct decoding) -/

/-- Decoding computations that can fail (a raised decode exception). -/
abbrev Dec (α : Type) := Except String α

/-- Python dict lookup on a JSON object (first binding wins, as in a
decoded JSON object with duplicate keys Python keeps the last — the
payloads considered have unique keys, where the two agree). -/
def jGet (m : List (String × Json)) (k : String) : Option Json :=
  (m.find? fun kv => kv.1 == k).map (·.2)

/-- Python truthiness of a JSON-decoded value. -/
def jsonTruthy : Json → Bool
  | .null => false
  | .bool b => b
  | .num n => n ≠ 0
  | .str s => s ≠ ""
  | .arr xs => !xs.isEmpty
  | .obj m => !m.isEmpty

/-- Expect a JSON object. -/
def asObj : Json → Dec (List (String × Json))
  | .obj m => .ok m
  | _ => .error "expected object"

/-- Decode a `str` field. -/
def decStr : Json → Dec String
  | .str s => .ok s
  | _ => .error "expected str"

/-- Decode an `int` field. -/
def decInt : Json → Dec Int
  | .num n => .ok n
  | _ => .error "expected int"

/-- Decode a `bool` field. -/
def decBool : Json → Dec Bool
  | .bool b => .ok b
  | _ => .error "expected bool"

/-- Decode a field of the custom type `Value` through the
`extract_value` hook: the `str` and `dict` encodings normalize via
`unwrap_to_str`; any other shape is left for the typed decoder, which
rejects it. -/
def decValue (j : Json) : Dec String :=
  match extract_value_Value j with
  | some s => .ok s
  | none => .error "expected Value (str or dict)"

/-- A Python `str | int` union field. -/
inductive StrInt where
  | s (v : String)
  | i (v : Int)
deriving DecidableEq, Repr

/-- Decode a `str | int` field. -/
def decStrInt : Json → Dec StrInt
  | .str v => .ok (.s v)
  | .num v => .ok (.i v)
  | _ => .error "expected str or int"

/-- Python `str()` on a `str | int` value. -/
def StrInt.pyStr : StrInt → String
  | .s v => v
  | .i v => toString v

/-- Python `int()` on a string: optional surrounding whitespace, an
optional sign, then one or more decimal digits. -/
def pyIntOfString (s : String) : Option Int :=
  let cs := ((s.data.dropWhile pyWs).reverse.dropWhile pyWs).reverse
  let digits : List Char → Option Int := fun ds =>
    if !ds.isEmpty && ds.all Char.isDigit then some (digitsToNat ds) else none
  match cs with
  | '-' :: ds => (digits ds).map (fun n => -n)
  | '+' :: ds => digits ds
  | ds => digits ds

/-- Python `int()` on a `str | int` value; raises `ValueError` on a
non-numeric string. -/
def StrInt.pyInt : StrInt → Dec Int
  | .i v => .ok v
  | .s v =>
    match pyIntOfString v with
    | some n => .ok n
    | none => .error "invalid literal for int()"

/-- Decode a required struct field. -/
def reqField (m : List (String × Json)) (k : String) (dec : Json → Dec α) : Dec α :=
  match jGet m k with
  | some j => dec j
  | none => .error ("missing required field " ++ k)

/-- Decode an optional struct field with a default. -/
def optField (m : List (String × Json)) (k : String) (dec : Json → Dec α)
    (dflt : α) : Dec α :=
  match jGet m k with
  | some j => dec j
  | none => .ok dflt

/-- Decode an `Optional[...]` field value: JSON `null` becomes `none`. -/
def decOpt (dec : Json → Dec α) : Json → Dec (Option α)
  | .null => .ok none
  | j => (dec j).map some

/-- Decode a `List[...]` field value. -/
def decListOf (dec : Json → Dec α) : Json → Dec (List α)
  | .arr xs => xs.mapM dec
  | _ => .error "expected array"

/-! ## Delta struct models (`models/*.py`) -/

/-- `MessageData` (models/messagesData.py:6-22).  `folderId` and
`threadKey` carry the `Value` semantic type and are normalized through
the `extract_value` hook. -/
structure MessageData where
  id : String
  sender_id : StrInt
  folder : String
  timestamp : StrInt
  thread_id : String
  adminText : String
  unsendType : String
deriving DecidableEq, Repr

/-- `msgspec` decode of `MessageData`. -/
def decodeMessageData (j : Json) : Dec MessageData := do
  let m ← asObj j
  let id ← reqField m "messageId" decStr
  let sender ← reqField m "actorFbId" decStrInt
  let folder ← reqField m "folderId" decValue
  let ts ← reqField m "timestamp" decStrInt
  let tid ← reqField m "threadKey" decValue
  let adminText ← optField m "adminText" decStr ""
  let unsendType ← optField m "unsendType" decStr "unknown"
  .ok ⟨id, sender, folder, ts, tid, adminText, unsendType⟩

/-- `Mention` (models/message.py:52-61), decoded from the renamed
fields `i`, `o`, `l`. -/
structure Mention where
  user_id : String
  offset : Int
  length : Int
  name : Option String
deriving DecidableEq, Repr

/-- `msgspec` decode of `Mention`. -/
def decodeMention (j : Json) : Dec Mention := do
  let m ← asObj j
  let i ← reqField m "i" decStr
  let o ← reqField m "o" decInt
  let l ← reqField m "l" decInt
  let nm ← optField m "name" (decOpt decStr) none
  .ok ⟨i, o, l, nm⟩

/-- The `MentionType` branch of `MessageParser.extract_value`
(parser.py:236-239): a dict with a `prng` key holds a JSON string that
decodes to the mention list; a dict without one gives the empty list;
a non-dict falls through the hook and is rejected. -/
def decodeMentions (j : Json) : Dec (List Mention) := do
  let m ← asObj j
  match jGet m "prng" with
  | some (.str s) => do
    let inner ← parse_json s
    decListOf decodeMention inner
  | some _ => .error "prng payload is not a string"
  | none => .ok []

/-- `AttachmentType` (models/attachment.py:8-24). -/
inductive AttachmentType where
  | IMAGE | VIDEO | Audio | GIF | STICKER | FILE | LOCATION | SHARE
  | FACEBOOKPOST | EXTERNALURL | FACEBOOKPROFILE | FACEBOOKSTORY
  | FACEBOOKREEL | FACEBOOKPRODUCT | FACEBOOKGAME | CommunityInviteLink
deriving DecidableEq, Repr

/-- The `__typename` tags of the `BlobAttachment` union
(models/attachment.py:375). -/
def blobTag : String → Option AttachmentType
  | "MessageImage" => some .IMAGE
  | "MessageVideo" => some .VIDEO
  | "MessageAnimatedImage" => some .GIF
  | "MessageFile" => some .FILE
  | "MessageAudio" => some .Audio
  | _ => none

/-- A decoded attachment, modelled to the level the verified claims
need: which branch of `MessageParser.parse_attachment` produced it and
its `type` attribute; the per-shape field extraction of
`parse_*_extensible` is not modelled. -/
inductive Attachment where
  | sticker (payload : Json)
  | blob (ty : AttachmentType) (payload : Json)
  | extensible (ty : AttachmentType) (payload : Json)
deriving Repr

/-- The `type` attribute of an attachment object. -/
def Attachment.type : Attachment → AttachmentType
  | .sticker _ => .STICKER
  | .blob ty _ => ty
  | .extensible ty _ => ty

/-- `extensibleattachment` (models/deltas/attachments_deltas.py:29-33);
`story_attachment` is kept as its raw document. -/
structure ExtensibleAttachment where
  legacy_attachment_id : String
  genie_attachment : String
  story_attachment : Json
deriving Repr

/-- The `GenieType` branch of `MessageParser.extract_value`
(parser.py:233-234): `obj["genie_message"]["__typename"]` when
`genie_message` is truthy, else `GenieType(None)` — which as a `str`
subclass constructed on `None` is the string `"None"`. -/
def decodeGenie (j : Json) : Dec String := do
  let m ← asObj j
  match jGet m "genie_message" with
  | none => .error "missing key genie_message"
  | some g =>
    if jsonTruthy g then do
      let gm ← asObj g
      match jGet gm "__typename" with
      | some (.str t) => .ok t
      | some _ => .error "__typename is not a string"
      | none => .error "missing key __typename"
    else .ok "None"

/-- `msgspec` decode of `extensibleattachment`. -/
def decodeExtensible (j : Json) : Dec ExtensibleAttachment := do
  let m ← asObj j
  let lid ← reqField m "legacy_attachment_id" decStr
  let genie ← reqField m "genie_attachment" decodeGenie
  match jGet m "story_attachment" with
  | some sa => .ok ⟨lid, genie, sa⟩
  | none => .error "missing required field story_attachment"

/-- `Mercury` (models/deltas/attachments_deltas.py:36-39).  The
`sticker_attachment` payload must carry the `Sticker` tag; a
`blob_attachment` is tag-dispatched over the `BlobAttachment` union. -/
structure Mercury where
  extensible_attachment : Option ExtensibleAttachment
  sticker_attachment : Option Json
  blob_attachment : Option (AttachmentType × Json)
deriving Repr

/-- Decode a `StickerAttachment` payload (tag `Sticker`); only the tag
check is modelled. -/
def decodeSticker (j : Json) : Dec Json := do
  let m ← asObj j
  match jGet m "__typename" with
  | some (.str "Sticker") => .ok j
  | _ => .error "expected Sticker tag"

/-- Decode a `BlobAttachment` payload by its `__typename` tag; the
per-class fields are not modelled. -/
def decodeBlob (j : Json) : Dec (AttachmentType × Json) := do
  let m ← asObj j
  match jGet m "__typename" with
  | some (.str t) =>
    match blobTag t with
    | some ty => .ok (ty, j)
    | none => .error "unknown blob attachment tag"
  | _ => .error "missing blob attachment tag"

/-- `msgspec` decode of `Mercury`. -/
def decodeMercury (j : Json) : Dec Mercury := do
  let m ← asObj j
  let ext ← optField m "extensible_attachment" (decOpt decodeExtensible) none
  let st ← optField m "sticker_attachment" (decOpt decodeSticker) none
  let blob ← optField m "blob_attachment" (decOpt decodeBlob) none
  .ok ⟨ext, st, blob⟩

/-- `RawAttachments` (models/deltas/attachments_deltas.py:41-43). -/
def decodeRawAttachment (j : Json) : Dec Mercury := do
  let m ← asObj j
  reqField m "mercury" decodeMercury

/-- `MessageParser._parsers` (parser.py:160-168): the genie-type keys
that have an extensible-attachment parser, with the `type` attribute of
the attachment object that parser builds. -/
def extensibleParserType : String → Option AttachmentType
  | "Video" => some .FACEBOOKREEL
  | "Story" => some .FACEBOOKPOST
  | "ExternalUrl" => some .EXTERNALURL
  | "User" => some .FACEBOOKPROFILE
  | "MessageLocation" => some .LOCATION
  | "CommerceProductItemShare" => some .FACEBOOKPRODUCT
  | "None" => some .FACEBOOKSTORY
  | _ => none

/-- `MessageParser.parse_attachment` (parser.py:343-357): sticker
first, then blob, then the extensible parser looked up by genie type;
`None` when nothing matches. -/
def parse_attachment (m : Mercury) : Option Attachment :=
  match m.sticker_attachment with
  | some j => some (.sticker j)
  | none =>
    match m.blob_attachment with
    | some (ty, j) => some (.blob ty j)
    | none =>
      match m.extensible_attachment with
      | some e =>
        match extensibleParserType e.genie_attachment with
        | some ty => some (.extensible ty e.story_attachment)
        | none => none
      | none => none

/-- `MessageType` (models/message.py:14-39). -/
inductive MessageType where
  | TEXT | IMAGE | VIDEO | Audio | GIF | EMOJI | STICKER | FILE | LOCATION
  | FACEBOOK_POST | FACEBOOK_PROFILE | FACEBOOK_REEL | FACEBOOK_PRODUCT
  | FACEBOOK_STORY | FACEBOOK_GAME | EXTERNAL_URL
  | POLL_CREATED | POLL_VOTED | MESSAGE_PINNED | MESSAGE_UNSENT
  | MESSAGE_REPLY | MESSAGE_REACTION | ADMIN_TEXT
deriving DecidableEq, Repr

/-- `ThreadType` (a closed enum in models/thread.py); only the members
the verified paths mention are modelled. -/
inductive ThreadType where
  | USER | GROUP | PAGE | UNKNOWN
deriving DecidableEq, Repr

/-- `ThreadFolder` (models/thread.py). -/
inductive ThreadFolder where
  | INBOX | ARCHIVED | PENDING | OTHER
deriving DecidableEq, Repr

/-- `MessageParser._attach_to_message` (parser.py:170-185).  `SHARE`
and `CommunityInviteLink` are absent from the dict: looking them up
raises `KeyError`. -/
def attach_to_message : AttachmentType → Option MessageType
  | .IMAGE => some .IMAGE
  | .VIDEO => some .VIDEO
  | .GIF => some .GIF
  | .STICKER => some .STICKER
  | .FILE => some .STICKER
  | .Audio => some .Audio
  | .LOCATION => some .LOCATION
  | .FACEBOOKPOST => some .FACEBOOK_POST
  | .FACEBOOKREEL => some .FACEBOOK_REEL
  | .FACEBOOKPROFILE => some .FACEBOOK_PROFILE
  | .FACEBOOKGAME => some .FACEBOOK_GAME
  | .FACEBOOKPRODUCT => some .FACEBOOK_PRODUCT
  | .FACEBOOKSTORY => some .FACEBOOK_STORY
  | .EXTERNALURL => some .EXTERNAL_URL
  | _ => none

/-- `ReadReceipt` (models/timestamps.py:6-17). -/
structure ReadReceipt where
  timestamp : String
  watermark_timestamp : String
  user_id : String
  folder : String
  thread_id : String
deriving DecidableEq, Repr

/-- `msgspec` decode of `ReadReceipt`. -/
def decodeReadReceipt (m : List (String × Json)) : Dec ReadReceipt := do
  let ts ← reqField m "actionTimestampMs" decStr
  let wts ← reqField m "watermarkTimestampMs" decStr
  let uid ← reqField m "actorFbId" decStr
  let folder ← reqField m "folderId" decValue
  let tid ← reqField m "threadKey" decValue
  .ok ⟨ts, wts, uid, folder, tid⟩

/-- `DeliveryReceipt` (models/timestamps.py:19-28). -/
structure DeliveryReceipt where
  timestamp : Int
  message_id : List String
  thread_id : String
  user_id : String
deriving DecidableEq, Repr

/-- `msgspec` decode of `DeliveryReceipt`. -/
def decodeDeliveryReceipt (m : List (String × Json)) : Dec DeliveryReceipt := do
  let ts ← reqField m "deliveredWatermarkTimestampMs" decInt
  let mids ← reqField m "messageIds" (decListOf decStr)
  let tid ← reqField m "threadKey" decValue
  let uid ← reqField m "actorFbId" decValue
  .ok ⟨ts, mids, tid, uid⟩

/-- `MarkFolderSeen` (models/timestamps.py:30-35). -/
structure MarkFolderSeen where
  folders : List String
  timestamp : String
deriving DecidableEq, Repr

/-- `msgspec` decode of `MarkFolderSeen`. -/
def decodeMarkFolderSeen (m : List (String × Json)) : Dec MarkFolderSeen := do
  let fs ← reqField m "folders" (decListOf decStr)
  let ts ← reqField m "timestamp" decStr
  .ok ⟨fs, ts⟩

/-- `MarkRead` (models/timestamps.py:37-46). -/
structure MarkRead where
  timestamp : String
  thread_ids : List String
  watermark_timestamp : String
  folder : Option String
deriving DecidableEq, Repr

/-- `msgspec` decode of `MarkRead`. -/
def decodeMarkRead (m : List (String × Json)) : Dec MarkRead := do
  let ts ← reqField m "actionTimestamp" decStr
  let tids ← reqField m "threadKeys" (decListOf decValue)
  let wts ← reqField m "watermarkTimestamp" decStr
  let folder ← optField m "folderId" (decOpt decValue) none
  .ok ⟨ts, tids, wts, folder⟩

/-- `MarkUnread` (models/timestamps.py:48-53). -/
structure MarkUnread where
  timestamp : String
  thread_ids : List String
deriving DecidableEq, Repr

/-- `msgspec` decode of `MarkUnread`. -/
def decodeMarkUnread (m : List (String × Json)) : Dec MarkUnread := do
  let ts ← reqField m "actionTimestamp" decStr
  let tids ← reqField m "threadKeys" (decListOf decValue)
  .ok ⟨ts, tids⟩

/-- `addedParticipant` (models/thread_actions.py:10-17). -/
structure AddedParticipant where
  name : String
  user_id : String
  last_unsubscribed : Option String
deriving DecidableEq, Repr

/-- `msgspec` decode of `addedParticipant`. -/
def decodeAddedParticipant (j : Json) : Dec AddedParticipant := do
  let m ← asObj j
  let n ← reqField m "fullName" decStr
  let uid ← reqField m "userFbId" decStr
  let lu ← optField m "lastUnsubscribeTimestampMs" (decOpt decStr) none
  .ok ⟨n, uid, lu⟩

/-- `ApprovalMode` (models/thread_actions.py:22-27). -/
structure ApprovalMode where
  mode : String
  messageMetadata : MessageData
deriving DecidableEq, Repr

/-- `msgspec` decode of `ApprovalMode`. -/
def decodeApprovalMode (m : List (String × Json)) : Dec ApprovalMode := do
  let mode ← reqField m "mode" decStr
  let md ← reqField m "messageMetadata" decodeMessageData
  .ok ⟨mode, md⟩

/-- `ApprovalQueue` (models/thread_actions.py:30-43). -/
structure ApprovalQueue where
  requester_id : String
  action : String
  messageMetadata : MessageData
  inviter_id : Option String
  request_timestamp : Option String
  requestSource : String
deriving DecidableEq, Repr

/-- `msgspec` decode of `ApprovalQueue`. -/
def decodeApprovalQueue (m : List (String × Json)) : Dec ApprovalQueue := do
  let rid ← reqField m "recipientFbId" decStr
  let act ← reqField m "action" decStr
  let md ← reqField m "messageMetadata" decodeMessageData
  let inv ← optField m "inviterFbId" (decOpt decStr) none
  let rts ← optField m "requestTimestamp" (decOpt decStr) none
  let src ← optField m "requestSource" decStr "JOIN_THROUGH_LINK"
  .ok ⟨rid, act, md, inv, rts, src⟩

/-- `JoinableMode` (models/thread_actions.py:46-51). -/
structure JoinableMode where
  mode : String
  messageMetadata : MessageData
deriving DecidableEq, Repr

/-- `msgspec` decode of `JoinableMode`. -/
def decodeJoinableMode (m : List (String × Json)) : Dec JoinableMode := do
  let mode ← reqField m "mode" decStr
  let md ← reqField m "messageMetadata" decodeMessageData
  .ok ⟨mode, md⟩

/-- `ParticipantsAdded` (models/thread_actions.py:54-61). -/
structure ParticipantsAdded where
  added_participants : List AddedParticipant
  messageMetadata : MessageData
  participants : List Json
deriving Repr

/-- `msgspec` decode of `ParticipantsAdded`. -/
def decodeParticipantsAdded (m : List (String × Json)) : Dec ParticipantsAdded := do
  let aps ← reqField m "addedParticipants" (decListOf decodeAddedParticipant)
  let md ← reqField m "messageMetadata" decodeMessageData
  let ps ← optField m "participants" (decListOf fun j => .ok j) []
  .ok ⟨aps, md, ps⟩

/-- `ParticipantLeft` (models/thread_actions.py:63-70). -/
structure ParticipantLeft where
  left_participant : String
  messageMetadata : MessageData
  participants : List Json
deriving Repr

/-- `msgspec` decode of `ParticipantLeft`. -/
def decodeParticipantLeft (m : List (String × Json)) : Dec ParticipantLeft := do
  let lp ← reqField m "leftParticipantFbId" decStr
  let md ← reqField m "messageMetadata" decodeMessageData
  let ps ← optField m "participants" (decListOf fun j => .ok j) []
  .ok ⟨lp, md, ps⟩

/-- `AdminRemoved` (models/thread_actions.py:72-77). -/
structure AdminRemoved where
  removed_admins : List String
  messageMetadata : MessageData
deriving DecidableEq, Repr

/-- `msgspec` decode of `AdminRemoved`. -/
def decodeAdminRemoved (m : List (String × Json)) : Dec AdminRemoved := do
  let ras ← reqField m "removedAdminFbIds" (decListOf decStr)
  let md ← reqField m "messageMetadata" decodeMessageData
  .ok ⟨ras, md⟩

/-- `ThreadName` (models/thread_actions.py:79-86). -/
structure ThreadName where
  name : String
  messageMetadata : MessageData
  participants : List Json
deriving Repr

/-- `msgspec` decode of `ThreadName`. -/
def decodeThreadName (m : List (String × Json)) : Dec ThreadName := do
  let n ← reqField m "name" decStr
  let md ← reqField m "messageMetadata" decodeMessageData
  let ps ← optField m "participants" (decListOf fun j => .ok j) []
  .ok ⟨n, md, ps⟩

/-- `AdminTextMessage` (models/deltas/group_deltas.py:52-56);
`untypedData` is `msgspec.Raw`, kept as the undecoded sub-document. -/
structure AdminTextMessage where
  messageMetadata : MessageData
  type : String
  untypedData : Json
deriving Repr

/-- `msgspec` decode of `AdminTextMessage`. -/
def decodeAdminTextMessage (m : List (String × Json)) : Dec AdminTextMessage := do
  let md ← reqField m "messageMetadata" decodeMessageData
  let ty ← reqField m "type" decStr
  match jGet m "untypedData" with
  | some u => .ok ⟨md, ty, u⟩
  | none => .error "missing required field untypedData"

/-- `ThreadMuteSettings` (models/thread_actions.py:128-135). -/
structure ThreadMuteSettings where
  user_id : String
  thread_id : String
  expire_time : Int
deriving DecidableEq, Repr

/-- `msgspec` decode of `ThreadMuteSettings`. -/
def decodeThreadMuteSettings (m : List (String × Json)) : Dec ThreadMuteSettings := do
  let uid ← reqField m "actorFbId" decStr
  let tid ← reqField m "threadKey" decValue
  let et ← reqField m "expireTime" decInt
  .ok ⟨uid, tid, et⟩

/-- `ThreadAction` (models/thread_actions.py:137-142). -/
structure ThreadAction where
  action : String
  thread_id : String
deriving DecidableEq, Repr

/-- `msgspec` decode of `ThreadAction`. -/
def decodeThreadAction (m : List (String × Json)) : Dec ThreadAction := do
  let a ← reqField m "action" decStr
  let tid ← reqField m "threadKey" decValue
  .ok ⟨a, tid⟩

/-- `ThreadFolderMove` (models/thread_actions.py:145-152). -/
structure ThreadFolderMove where
  user_id : String
  folder : String
  thread_id : String
deriving DecidableEq, Repr

/-- `msgspec` decode of `ThreadFolderMove`. -/
def decodeThreadFolderMove (m : List (String × Json)) : Dec ThreadFolderMove := do
  let uid ← reqField m "user_id" decStr
  let f ← reqField m "folder" decStr
  let tid ← reqField m "threadKey" decValue
  .ok ⟨uid, f, tid⟩

/-- `ThreadDelete` (models/thread_actions.py:154-159). -/
structure ThreadDelete where
  user_id : String
  thread_ids : List String
deriving DecidableEq, Repr

/-- `msgspec` decode of `ThreadDelete`. -/
def decodeThreadDelete (m : List (String × Json)) : Dec ThreadDelete := do
  let uid ← reqField m "actorFbId" decStr
  let tids ← reqField m "threadKeys" (decListOf decValue)
  .ok ⟨uid, tids⟩

/-- `ForcedFetch` (models/thread_actions.py:248-253). -/
structure ForcedFetch where
  threadKey : String
  messageId : Option String
  type : String
deriving DecidableEq, Repr

/-- `msgspec` decode of `ForcedFetch`. -/
def decodeForcedFetch (m : List (String × Json)) : Dec ForcedFetch := do
  let tk ← reqField m "threadKey" decValue
  let mid ← optField m "messageId" (decOpt decStr) none
  let ty ← optField m "type" decStr "None"
  .ok ⟨tk, mid, ty⟩

/-- `Reaction` (models/message.py:47-50), decoded from its int value. -/
inductive Reaction where
  | ADDED
  | REMOVED
deriving DecidableEq, Repr

/-- Decode a `Reaction` enum value. -/
def decReaction : Json → Dec Reaction
  | .num 0 => .ok .ADDED
  | .num 1 => .ok .REMOVED
  | _ => .error "invalid Reaction value"

/-- `MessageReaction` (models/message.py:95-110). -/
structure MessageReaction where
  id : String
  thread_id : String
  reactor : Int
  reacted_message_sender : Int
  reaction_type : Reaction
  reaction : Option String
  timestamp : Option Int
deriving DecidableEq, Repr

/-- `msgspec` decode of `MessageReaction`. -/
def decodeMessageReaction (j : Json) : Dec MessageReaction := do
  let m ← asObj j
  let id ← reqField m "messageId" decStr
  let tid ← reqField m "threadKey" decValue
  let reactor ← reqField m "userId" decInt
  let sender ← reqField m "senderId" decInt
  let rt ← reqField m "action" decReaction
  let r ← optField m "reaction" (decOpt decStr) none
  let ts ← optField m "reactionTimestamp" (decOpt decInt) none
  .ok ⟨id, tid, reactor, sender, rt, r, ts⟩

/-- `MessageRemove` (models/message.py:112-117). -/
structure MessageRemove where
  ids : List String
  thread_id : String
deriving DecidableEq, Repr

/-- `msgspec` decode of `MessageRemove`. -/
def decodeMessageRemove (j : Json) : Dec MessageRemove := do
  let m ← asObj j
  let ids ← reqField m "messageIds" (decListOf decStr)
  let tid ← reqField m "threadKey" decValue
  .ok ⟨ids, tid⟩

/-- `MessageUnsend` (models/message.py:119-128). -/
structure MessageUnsend where
  id : String
  thread_id : String
  sender_id : Int
  timestamp : Int
deriving DecidableEq, Repr

/-- `msgspec` decode of `MessageUnsend`. -/
def decodeMessageUnsend (j : Json) : Dec MessageUnsend := do
  let m ← asObj j
  let id ← reqField m "messageID" decStr
  let tid ← reqField m "threadKey" decValue
  let sid ← reqField m "senderID" decInt
  let ts ← reqField m "deletionTimestamp" decInt
  .ok ⟨id, tid, sid, ts⟩

/-- `MuteThread` (models/thread_actions.py:120-125). -/
structure MuteThread where
  thread_id : String
  mute_until : Int
deriving DecidableEq, Repr

/-- `msgspec` decode of `MuteThread`. -/
def decodeMuteThread (j : Json) : Dec MuteThread := do
  let m ← asObj j
  let tid ← reqField m "threadKey" decValue
  let mu ← reqField m "muteUntil" decInt
  .ok ⟨tid, mu⟩

/-- `PageNotification` (models/notifications.py). -/
structure PageNotification where
  sender_id : String
  page_id : String
  page_name : String
  message_id : String
  title : String
  text : String
  sender_profile_pic : String
  page_profile_pic : String
deriving DecidableEq, Repr

/-- `msgspec` decode of `PageNotification`. -/
def decodePageNotification (j : Json) : Dec PageNotification := do
  let m ← asObj j
  let sid ← reqField m "senderId" decStr
  let pid ← reqField m "pageId" decStr
  let pn ← reqField m "pageName" decStr
  let mid ← reqField m "messageId" decStr
  let title ← reqField m "title" decStr
  let text ← reqField m "body" decStr
  let spp ← reqField m "senderProfPicUrl" decStr
  let ppp ← reqField m "pageProfPicUrl" decStr
  .ok ⟨sid, pid, pn, mid, title, text, spp, ppp⟩

/-- `ApprovedUser` (models/thread_actions.py:90-97). -/
structure ApprovedUser where
  thread_id : String
  contact_id : Int
  approved_user_id : Int
deriving DecidableEq, Repr

/-- `msgspec` decode of `ApprovedUser`. -/
def decodeApprovedUser (j : Json) : Dec ApprovedUser := do
  let m ← asObj j
  let tid ← reqField m "threadKey" decValue
  let cid ← reqField m "contactId" decInt
  let auid ← reqField m "subscribe_actor_id" decInt
  .ok ⟨tid, cid, auid⟩

/-- `ChangeViwerStatus` (models/thread_actions.py:100-117). -/
structure ChangeViwerStatus where
  user_id : String
  thread_id : String
  can_reply : Bool
  reason : Int
  is_messenger_blocked : Option Bool
  messenger_blocked_timestamp : Option Int
  is_facebook_blocked : Option Bool
  facebook_blocked_timestamp : Option Int
deriving DecidableEq, Repr

/-- `msgspec` decode of `ChangeViwerStatus`. -/
def decodeChangeViwerStatus (j : Json) : Dec ChangeViwerStatus := do
  let m ← asObj j
  let uid ← reqField m "actorFbid" decStr
  let tid ← reqField m "threadKey" decValue
  let cr ← reqField m "canViewerReply" decBool
  let reason ← reqField m "reason" decInt
  let imb ← optField m "isMsgBlockedByViewer" (decOpt decBool) none
  let mbt ← optField m "isMsgBlockedTimestamp" (decOpt decInt) none
  let ifb ← optField m "isFBBlockedByViewer" (decOpt decBool) none
  let fbt ← optField m "isFBBlockedTimestamp" (decOpt decInt) none
  .ok ⟨uid, tid, cr, reason, imb, mbt, ifb, fbt⟩

/-- `PayloadAttachments` (models/deltas/attachments_deltas.py:46-48);
the `PayloadAttachmentType` hook (parser.py:241-245) decodes the
`mercuryJSON` JSON string through `mercury_decoder` into a one-element
tuple. -/
structure PayloadAttachments where
  id : String
  mercuryJSON : Mercury
deriving Repr

/-- `msgspec` decode of `PayloadAttachments` with the
`PayloadAttachmentType` hook (a non-string `mercuryJSON` falls through
the hook and is rejected by the typed decoder). -/
def decodePayloadAttachments (j : Json) : Dec PayloadAttachments := do
  let m ← asObj j
  let id ← reqField m "id" decStr
  match jGet m "mercuryJSON" with
  | some (.str s) => do
    let inner ← parse_json s
    let merc ← decodeMercury inner
    .ok ⟨id, merc⟩
  | some _ => .error "mercuryJSON is not a string"
  | none => .error "missing required field mercuryJSON"

/-- `PayloadReplyMessage` (models/deltas/payloads.py:22-29). -/
structure PayloadReplyMessage where
  messageMetadata : MessageData
  body : Option String
  messageReply : Option String
  attachments : Option (List PayloadAttachments)
  mentions : List Mention
  participants : List Json
deriving Repr

/-- `msgspec` decode of `PayloadReplyMessage`. -/
def decodePayloadReplyMessage (j : Json) : Dec PayloadReplyMessage := do
  let m ← asObj j
  let md ← reqField m "messageMetadata" decodeMessageData
  let body ← optField m "body" (decOpt decStr) none
  let mr ← optField m "messageReply" (decOpt decValue) none
  let atts ← optField m "attachments" (decOpt (decListOf decodePayloadAttachments)) none
  let mens ← optField m "data" decodeMentions []
  let ps ← optField m "participants" (decListOf fun x => .ok x) []
  .ok ⟨md, body, mr, atts, mens, ps⟩

/-- `PayloadDeltaReply` (models/deltas/payloads.py:32-35). -/
structure PayloadDeltaReply where
  repliedToMessage : Option PayloadReplyMessage
  message : Option PayloadReplyMessage
deriving Repr

/-- `msgspec` decode of `PayloadDeltaReply`. -/
def decodePayloadDeltaReply (j : Json) : Dec PayloadDeltaReply := do
  let m ← asObj j
  let rt ← optField m "repliedToMessage" (decOpt decodePayloadReplyMessage) none
  let msg ← optField m "message" (decOpt decodePayloadReplyMessage) none
  .ok ⟨rt, msg⟩

/-- Decode one of the field-less payload structs
(`PayloadThreadTheme`, `PayloadThreadEmoji`, `PayloadMagicWords`,
`PayloadAdminsAdded`, `PayloadMoveToArchive`): any object decodes. -/
def decodeEmptyStruct (j : Json) : Dec Unit := do
  let _ ← asObj j
  .ok ()

/-- `DeltaMessageReply` (models/deltas/payloads.py:99-115): every field
optional, renamed from the `delta*` JSON keys. -/
structure DeltaMessageReply where
  messageReply : Option PayloadDeltaReply
  replyType : Option Int
  messageReaction : Option MessageReaction
  messageUnsend : Option MessageUnsend
  messageRemove : Option MessageRemove
  muteThread : Option MuteThread
  changeViewerStatus : Option ChangeViwerStatus
  pageNotification : Option PageNotification
deriving Repr

/-- `msgspec` decode of `DeltaMessageReply`.  The fields whose payload
structs are field-less (`deltaUpdateThreadTheme` and friends) are
validated but carry no data. -/
def decodeDeltaMessageReply (j : Json) : Dec DeltaMessageReply := do
  let m ← asObj j
  let mr ← optField m "deltaMessageReply" (decOpt decodePayloadDeltaReply) none
  let rt ← optField m "replyType" (decOpt decInt) none
  let reac ← optField m "deltaMessageReaction" (decOpt decodeMessageReaction) none
  let uns ← optField m "deltaRecallMessageData" (decOpt decodeMessageUnsend) none
  let rem ← optField m "deltaRemoveMessage" (decOpt decodeMessageRemove) none
  let _ ← optField m "deltaUpdateThreadTheme" (decOpt decodeEmptyStruct) none
  let _ ← optField m "deltaUpdateThreadEmoji" (decOpt decodeEmptyStruct) none
  let _ ← optField m "deltaUpdateMagicWords" (decOpt decodeEmptyStruct) none
  let _ ← optField m "deltaPromoteGroupThreadAdmin" (decOpt decodeEmptyStruct) none
  let _ ← optField m "deltaAcceptGroupThread" (decOpt decodeApprovedUser) none
  let mt ← optField m "deltaMuteCallsFromThread" (decOpt decodeMuteThread) none
  let _ ← optField m "deltaUpdatePinnedThread" (decOpt decodeEmptyStruct) none
  let cvs ← optField m "deltaChangeViewerStatus" (decOpt decodeChangeViwerStatus) none
  let pn ← optField m "deltaBiiMPageMessageNotification" (decOpt decodePageNotification) none
  .ok ⟨mr, rt, reac, uns, rem, mt, cvs, pn⟩

/-- `ClientPayloadDelta` (models/deltas/delta_wrapper.py:31-33). -/
structure ClientPayloadDelta where
  deltas : List DeltaMessageReply
deriving Repr

/-- `msgspec` decode of `ClientPayloadDelta`. -/
def decodeClientPayloadDelta (j : Json) : Dec ClientPayloadDelta := do
  let m ← asObj j
  let ds ← reqField m "deltas" (decListOf decodeDeltaMessageReply)
  .ok ⟨ds⟩

/-- `MessageParser.decode_byte_payload` (parser.py:250-257): a numeric
byte array is reassembled into bytes and JSON-decoded as a
`ClientPayloadDelta`; any failure raises `ParsingError`.  Byte values
are modelled as character codes (the payloads in scope are ASCII). -/
def decode_byte_payload (bytes : List Int) : Dec ClientPayloadDelta := do
  if bytes.all fun b => 0 ≤ b ∧ b < 256 then do
    let s := String.mk (bytes.map fun b => Char.ofNat b.toNat)
    let j ← parse_json s
    decodeClientPayloadDelta j
  else .error "invalid byte value"

/-- `NewMessageDelta` (models/deltas/delta_wrapper.py:39-45).
`attachments` is decoded through `RawAttachments` down to the `Mercury`
objects `parse_message` hands to `parse_attachment`. -/
structure NewMessageDelta where
  messageMetadata : MessageData
  body : Option String
  attachments : List Mercury
  mentions : List Mention
  participants : List Json
deriving Repr

/-- `msgspec` decode of `NewMessageDelta` (without its tag field). -/
def decodeNewMessage (m : List (String × Json)) : Dec NewMessageDelta := do
  let md ← reqField m "messageMetadata" decodeMessageData
  let body ← optField m "body" (decOpt decStr) none
  let atts ← optField m "attachments" (decListOf decodeRawAttachment) []
  let mens ← optField m "data" decodeMentions []
  let ps ← optField m "participants" (decListOf fun x => .ok x) []
  .ok ⟨md, body, atts, mens, ps⟩

/-- The tagged union `DeltaTypes`
(models/deltas/delta_wrapper.py:51): one constructor per concrete
delta shape, selected by the `class` tag field. -/
inductive Delta where
  | newMessage (d : NewMessageDelta)
  | clientPayload (payload : ClientPayloadDelta)
  | noOp
  | readReceipt (d : ReadReceipt)
  | deliveryReceipt (d : DeliveryReceipt)
  | markFolderSeen (d : MarkFolderSeen)
  | markRead (d : MarkRead)
  | markUnread (d : MarkUnread)
  | approvalQueue (d : ApprovalQueue)
  | approvalMode (d : ApprovalMode)
  | participantsAdded (d : ParticipantsAdded)
  | participantLeft (d : ParticipantLeft)
  | adminRemoved (d : AdminRemoved)
  | threadName (d : ThreadName)
  | adminText (d : AdminTextMessage)
  | joinableMode (d : JoinableMode)
  | threadMuteSettings (d : ThreadMuteSettings)
  | threadAction (d : ThreadAction)
  | threadFolderMove (d : ThreadFolderMove)
  | threadDelete (d : ThreadDelete)
  | forcedFetch (d : ForcedFetch)
deriving Repr

/-- `msgspec` tag-dispatched decode of one delta sub-document.  The
`ClientPayload` variant's `payload` field carries the
`DecodedPayloadType` hook: a numeric byte array run through
`decode_byte_payload` (parser.py:224-228).  An unknown `class` tag is
a decode error (which fails the whole frame decode). -/
def decodeDelta (j : Json) : Dec Delta := do
  let m ← asObj j
  match jGet m "class" with
  | some (.str tag) =>
    if tag = "NewMessage" then (decodeNewMessage m).map .newMessage
    else if tag = "ClientPayload" then
      match jGet m "payload" with
      | some (.arr bs) => do
        let bytes ← bs.mapM decInt
        (decode_byte_payload bytes).map .clientPayload
      | some _ => .error "ClientPayload payload is not a byte array"
      | none => .error "missing required field payload"
    else if tag = "NoOp" then .ok .noOp
    else if tag = "ReadReceipt" then (decodeReadReceipt m).map .readReceipt
    else if tag = "DeliveryReceipt" then (decodeDeliveryReceipt m).map .deliveryReceipt
    else if tag = "MarkFolderSeen" then (decodeMarkFolderSeen m).map .markFolderSeen
    else if tag = "MarkRead" then (decodeMarkRead m).map .markRead
    else if tag = "MarkUnread" then (decodeMarkUnread m).map .markUnread
    else if tag = "ApprovalQueue" then (decodeApprovalQueue m).map .approvalQueue
    else if tag = "ApprovalMode" then (decodeApprovalMode m).map .approvalMode
    else if tag = "ParticipantsAddedToGroupThread" then
      (decodeParticipantsAdded m).map .participantsAdded
    else if tag = "ParticipantLeftGroupThread" then
      (decodeParticipantLeft m).map .participantLeft
    else if tag = "AdminRemovedFromGroupThread" then
      (decodeAdminRemoved m).map .adminRemoved
    else if tag = "ThreadName" then (decodeThreadName m).map .threadName
    else if tag = "AdminTextMessage" then (decodeAdminTextMessage m).map .adminText
    else if tag = "JoinableMode" then (decodeJoinableMode m).map .joinableMode
    else if tag = "ThreadMuteSettings" then
      (decodeThreadMuteSettings m).map .threadMuteSettings
    else if tag = "ThreadAction" then (decodeThreadAction m).map .threadAction
    else if tag = "ThreadFolder" then (decodeThreadFolderMove m).map .threadFolderMove
    else if tag = "ThreadDelete" then (decodeThreadDelete m).map .threadDelete
    else if tag = "ForcedFetch" then (decodeForcedFetch m).map .forcedFetch
    else .error ("unknown delta class tag " ++ tag)
  | some _ => .error "class tag is not a string"
  | none => .error "missing class tag"

/-- `DeltaWrapper` (models/deltas/delta_wrapper.py:55-59): the typed
decode performed by `MessageParser.delta_decoder`.  The optional cursor
fields are validated; `parse_t_ms` uses only `deltas`. -/
def decodeDeltaWrapper (j : Json) : Dec (List Delta) := do
  let m ← asObj j
  let ds ← reqField m "deltas" (decListOf decodeDelta)
  let _ ← optField m "firstDeltaSeqId" (decOpt decInt) none
  let _ ← optField m "lastIssuedSeqId" (decOpt decInt) none
  let _ ← optField m "syncToken" (decOpt decStr) none
  .ok ds

/-! ## Events and the stream parse functions (`parser.py`, `client.py`) -/

/-- `Typing` (models/typing.py). -/
structure Typing where
  sender_id : Int
  state : Int
  thread_id : String
deriving DecidableEq, Repr

/-- `msgspec` decode of `Typing`. -/
def decodeTyping (j : Json) : Dec Typing := do
  let m ← asObj j
  let sid ← reqField m "sender_fbid" decInt
  let st ← reqField m "state" decInt
  let tid ← optField m "thread" decStr ""
  .ok ⟨sid, st, tid⟩

/-- `UserStatus` (models/presence.py). -/
structure UserStatus where
  userId : Int
  isActive : Int
  lastActive : Int
deriving DecidableEq, Repr

/-- `msgspec` decode of `UserStatus`. -/
def decodeUserStatus (j : Json) : Dec UserStatus := do
  let m ← asObj j
  let u ← reqField m "u" decInt
  let p ← reqField m "p" decInt
  let l ← optField m "l" decInt 0
  .ok ⟨u, p, l⟩

/-- `Presence` (models/presence.py). -/
structure Presence where
  list_type : String
  presence_list : List UserStatus
deriving DecidableEq, Repr

/-- `msgspec` decode of `Presence`. -/
def decodePresence (j : Json) : Dec Presence := do
  let m ← asObj j
  let lt ← reqField m "list_type" decStr
  let pl ← reqField m "list" (decListOf decodeUserStatus)
  .ok ⟨lt, pl⟩

/-- `EventType` (events/dispatcher.py:40-89). -/
inductive EventType where
  | ADMIN_ADDED | ADMIN_REMOVED
  | DISCONNECT | ERROR | LISTENING | PRESENCE | RECONNECT
  | MESSAGE | MESSAGE_UNSENT | MESSAGE_REACTION | MESSAGE_REMOVE
  | MESSAGE_SEEN | MESSAGE_DELIVERED | MESSAGE_PINNED | MESSAGE_UNPINNED
  | MESSAGE_BUMP | MARK_READ | MARK_UNREAD | TYPING
  | THREAD_THEME_CHANGE | THREAD_EMOJI_CHANGE | THREAD_NICKNAME_CHANGE
  | THREAD_APPROVAL_MODE_CHANGE | THREAD_MAGIC_WORDS_CHANGE
  | THREAD_MESSAGE_SHARING_CHANGE | THREAD_GAME_CHANGE
  | THREAD_JOINABLE_LINK_RESET | THREAD_JOINABLE_MODE_CHANGE
  | THREAD_APPROVAL_QUEUE | THREAD_NAME_CHANGE | THREAD_MUTE_SETTINGS
  | THREAD_MUTE | THREAD_ACTION | THREAD_FOLDER_MOVE | THREAD_DELETE
  | VIEWER_STATUS_CHANGE | PARTICIPANT_JOINED | PARTICIPANT_LEFT
  | PAGE_NOTIFICATION | POKE_NOTIFICATION | FRIEND_REQUEST_CHANGE
  | FRIEND_REQUEST_LIST_UPDATE | UNKNOWN
deriving DecidableEq, Repr

/-- The payloads decoded by the static `get_decoder` table
(parser.py:203-214) from an `AdminTextMessage`'s `untypedData`. -/
inductive AdminDecoded where
  | adminAdded (aded_admin thread_type : String)
  | threadMessagePin (message_id : String)
  | threadMessageUnPin (message_id : String)
  | threadMessageSharing (mode sender_name sender_id : String)
  | threadMagicWord (magic_word theme_name emoji removed_magic_word_count
      new_magic_word_count : String)
  | threadNickname (nickname participant_id : String)
  | threadTheme (theme_id theme_name theme_emoji theme_type theme_color
      gradient accessibility_label : String)
  | threadEmoji (emoji emoji_url : String)
deriving DecidableEq, Repr

/-- `Message` (models/message.py:130-162), as constructed by
`MessageParser.parse_message`; recursive through
`replied_to_message`. -/
inductive Message where
  | mk (id text sender_id thread_id : String) (thread_type : ThreadType)
      (reaction : List MessageReaction) (message_type : MessageType)
      (mentions : List Mention) (thread_folder : ThreadFolder)
      (thread_participants : List Json)
      (attachments : Option (List (Option Attachment))) (timestamp : Int)
      (can_unsend unsent : Bool) (replied_to_message : Option Message)
deriving Repr

/-- Field accessor. -/
def Message.id : Message → String
  | .mk v _ _ _ _ _ _ _ _ _ _ _ _ _ _ => v

/-- Field accessor. -/
def Message.text : Message → String
  | .mk _ v _ _ _ _ _ _ _ _ _ _ _ _ _ => v

/-- Field accessor. -/
def Message.sender_id : Message → String
  | .mk _ _ v _ _ _ _ _ _ _ _ _ _ _ _ => v

/-- Field accessor. -/
def Message.thread_id : Message → String
  | .mk _ _ _ v _ _ _ _ _ _ _ _ _ _ _ => v

/-- Field accessor. -/
def Message.message_type : Message → MessageType
  | .mk _ _ _ _ _ _ v _ _ _ _ _ _ _ _ => v

/-- Field accessor. -/
def Message.timestamp : Message → Int
  | .mk _ _ _ _ _ _ _ _ _ _ _ v _ _ _ => v

/-- Field accessor. -/
def Message.replied_to_message : Message → Option Message
  | .mk _ _ _ _ _ _ _ _ _ _ _ _ _ _ v => v

/-- One positional argument of a dispatched event. -/
inductive EventArg where
  | message (m : Message)
  | reaction (r : MessageReaction)
  | unsend (u : MessageUnsend)
  | remove (r : MessageRemove)
  | mute (m : MuteThread)
  | pageNotification (p : PageNotification)
  | delta (d : Delta)
  | adminDecoded (a : AdminDecoded)
  | metadata (m : MessageData)
  | typing (t : Typing)
  | presence (p : Presence)
  | frqList (friend_requests new_friend_request : Int)
  | frqState (user_id : Int) (action : String)
  | poke (user_poked poke_time : Int)
deriving Repr

/-- `ParsedEvent` (parser.py:92-94). -/
structure ParsedEvent where
  eventType : EventType
  args : List EventArg
deriving Repr

/-- The two shapes `MessageParser.parse_message` accepts
(parser.py:392-396). -/
inductive ParseMsgInput where
  | nm (d : NewMessageDelta)
  | pr (d : PayloadReplyMessage)

/-- Shared metadata accessor of the two `parse_message` inputs. -/
def ParseMsgInput.metadata : ParseMsgInput → MessageData
  | .nm d => d.messageMetadata
  | .pr d => d.messageMetadata

/-- Shared body accessor. -/
def ParseMsgInput.body : ParseMsgInput → Option String
  | .nm d => d.body
  | .pr d => d.body

/-- Shared mentions accessor. -/
def ParseMsgInput.mentions : ParseMsgInput → List Mention
  | .nm d => d.mentions
  | .pr d => d.mentions

/-- Shared participants accessor. -/
def ParseMsgInput.participants : ParseMsgInput → List Json
  | .nm d => d.participants
  | .pr d => d.participants

/-- `MessageParser.parse_message` (parser.py:392-424).  The errors model
the exceptions the Python body can raise (a `KeyError` from
`_attach_to_message`, a `ValueError` from `int(...)` on the
timestamp), which `parse_deltas` converts to `ParsingError`. -/
def parse_message (inp : ParseMsgInput) (replied : Option Message) : Dec Message := do
  let atts : Option (List (Option Attachment)) :=
    match inp with
    | .nm d => if d.attachments.isEmpty then none
               else some (d.attachments.map parse_attachment)
    | .pr d =>
      match d.attachments with
      | some l => if l.isEmpty then none
                  else some (l.map fun a => parse_attachment a.mercuryJSON)
      | none => none
  let mt : MessageType ←
    match atts with
    | some (some a :: _) =>
      match attach_to_message a.type with
      | some t => pure t
      | none => .error "KeyError in _attach_to_message"
    | some (none :: _) => pure .TEXT
    | _ => pure .TEXT
  let md := inp.metadata
  let ts ← md.timestamp.pyInt
  .ok (.mk md.id (inp.body.getD "") md.sender_id.pyStr md.thread_id .GROUP []
        mt inp.mentions .INBOX inp.participants atts ts
        (md.unsendType = "Can_Unsend") false replied)

/-- `AllAdminText` (models/deltas/group_deltas.py:35-48);
`change_thread_approval_mode` is commented out in the source. -/
def AllAdminText : List String :=
  ["joinable_group_link_mode_change", "joinable_group_link_reset",
   "change_thread_nickname", "change_thread_theme", "change_thread_admins",
   "change_thread_quick_reaction", "magic_words", "limit_sharing",
   "instant_game_dynamic_custom_update", "unpin_messages_v2", "pin_messages_v2"]

/-- `MessageParser.admin_text_to_event` (parser.py:187-200). -/
def admin_text_to_event : String → Option EventType
  | "joinable_group_link_reset" => some .THREAD_JOINABLE_LINK_RESET
  | "joinable_group_link_mode_change" => some .THREAD_JOINABLE_MODE_CHANGE
  | "change_thread_nickname" => some .THREAD_NICKNAME_CHANGE
  | "change_thread_theme" => some .THREAD_THEME_CHANGE
  | "change_thread_approval_mode" => some .THREAD_APPROVAL_MODE_CHANGE
  | "change_thread_quick_reaction" => some .THREAD_EMOJI_CHANGE
  | "change_thread_admins" => some .ADMIN_ADDED
  | "magic_words" => some .THREAD_MAGIC_WORDS_CHANGE
  | "limit_sharing" => some .THREAD_MESSAGE_SHARING_CHANGE
  | "instant_game_dynamic_custom_update" => some .THREAD_GAME_CHANGE
  | "pin_messages_v2" => some .MESSAGE_PINNED
  | "unpin_messages_v2" => some .MESSAGE_UNPINNED
  | _ => none

/-- `MessageParser.get_decoder` (parser.py:203-214): event kind to
strict decoder for the admin-text sub-document.  The kinds absent from
the dict (`THREAD_JOINABLE_LINK_RESET`, `THREAD_JOINABLE_MODE_CHANGE`,
`THREAD_GAME_CHANGE`, `THREAD_APPROVAL_MODE_CHANGE`) raise `KeyError`
when looked up. -/
def get_decoder : EventType → Option (Json → Dec AdminDecoded)
  | .ADMIN_ADDED => some fun j => do
      let m ← asObj j
      let a ← reqField m "TARGET_ID" decStr
      let t ← reqField m "THREAD_CATEGORY" decStr
      .ok (.adminAdded a t)
  | .MESSAGE_PINNED => some fun j => do
      let m ← asObj j
      let mid ← reqField m "pinned_message_id" decStr
      .ok (.threadMessagePin mid)
  | .MESSAGE_UNPINNED => some fun j => do
      let m ← asObj j
      let mid ← reqField m "pinned_message_id" decStr
      .ok (.threadMessageUnPin mid)
  | .THREAD_MESSAGE_SHARING_CHANGE => some fun j => do
      let m ← asObj j
      let mode ← reqField m "limit_sharing_type" decStr
      let sn ← reqField m "sender_name" decStr
      let sid ← reqField m "sender_id" decStr
      .ok (.threadMessageSharing mode sn sid)
  | .THREAD_MAGIC_WORDS_CHANGE => some fun j => do
      let m ← asObj j
      let mw ← reqField m "magic_word" decStr
      let tn ← reqField m "theme_name" decStr
      let em ← reqField m "emoji_effect" decStr
      let rc ← reqField m "removed_magic_word_count" decStr
      let nc ← reqField m "new_magic_word_count" decStr
      .ok (.threadMagicWord mw tn em rc nc)
  | .THREAD_NICKNAME_CHANGE => some fun j => do
      let m ← asObj j
      let n ← reqField m "nickname" decStr
      let p ← reqField m "participant_id" decStr
      .ok (.threadNickname n p)
  | .THREAD_THEME_CHANGE => some fun j => do
      let m ← asObj j
      let tid ← reqField m "theme_id" decStr
      let tn ← reqField m "theme_name_with_subtitle" decStr
      let te ← reqField m "theme_emoji" decStr
      let tt ← reqField m "theme_type" decStr
      let tc ← reqField m "theme_color" decStr
      let g ← reqField m "gradient" decStr
      let al ← reqField m "accessibility_label" decStr
      .ok (.threadTheme tid tn te tt tc g al)
  | .THREAD_EMOJI_CHANGE => some fun j => do
      let m ← asObj j
      let e ← reqField m "thread_quick_reaction_emoji" decStr
      let eu ← reqField m "thread_quick_reaction_emoji_url" decStr
      .ok (.threadEmoji e eu)
  | _ => none

/-- The body of `MessageParser.parse_deltas` (parser.py:513-592) before
its exception wrapper: the `isinstance` chain over decoded delta
shapes.  Shapes matched by no branch (`NoOp`, `MarkFolderSeen`,
`JoinableMode`, `ForcedFetch`, and `ClientPayload` inner shapes with no
recognized field) return `None`. -/
def parse_deltas_body : Delta → Dec (Option ParsedEvent)
  | .newMessage d => do
    let msg ← parse_message (.nm d) none
    .ok (some ⟨.MESSAGE, [.message msg]⟩)
  | .clientPayload data =>
    match data.deltas with
    | [] => .error "IndexError: deltas list is empty"
    | d0 :: _ =>
      match d0.messageReply with
      | some r => do
        let etype := if d0.replyType = some 1 then EventType.MESSAGE_BUMP
                     else EventType.MESSAGE
        let rpm ← match r.repliedToMessage with
          | some pm => parse_message (.pr pm) none
          | none => .error "AttributeError: repliedToMessage is None"
        let main ← match r.message with
          | some mm => parse_message (.pr mm) (some rpm)
          | none => .error "AttributeError: message is None"
        .ok (some ⟨etype, [.message main]⟩)
      | none =>
        match d0.messageReaction with
        | some x => .ok (some ⟨.MESSAGE_REACTION, [.reaction x]⟩)
        | none =>
          match d0.messageUnsend with
          | some x => .ok (some ⟨.MESSAGE_UNSENT, [.unsend x]⟩)
          | none =>
            match d0.messageRemove with
            | some x => .ok (some ⟨.MESSAGE_REMOVE, [.remove x]⟩)
            | none =>
              match d0.muteThread with
              | some x => .ok (some ⟨.THREAD_MUTE, [.mute x]⟩)
              | none =>
                match d0.pageNotification with
                | some x => .ok (some ⟨.PAGE_NOTIFICATION, [.pageNotification x]⟩)
                | none => .ok none
  | .adminRemoved d => .ok (some ⟨.ADMIN_REMOVED, [.delta (.adminRemoved d)]⟩)
  | .participantsAdded d => .ok (some ⟨.PARTICIPANT_JOINED, [.delta (.participantsAdded d)]⟩)
  | .participantLeft d => .ok (some ⟨.PARTICIPANT_LEFT, [.delta (.participantLeft d)]⟩)
  | .approvalMode d => .ok (some ⟨.THREAD_APPROVAL_MODE_CHANGE, [.delta (.approvalMode d)]⟩)
  | .approvalQueue d => .ok (some ⟨.THREAD_APPROVAL_QUEUE, [.delta (.approvalQueue d)]⟩)
  | .threadName d => .ok (some ⟨.THREAD_NAME_CHANGE, [.delta (.threadName d)]⟩)
  | .readReceipt d => .ok (some ⟨.MESSAGE_SEEN, [.delta (.readReceipt d)]⟩)
  | .deliveryReceipt d => .ok (some ⟨.MESSAGE_DELIVERED, [.delta (.deliveryReceipt d)]⟩)
  | .markRead d => .ok (some ⟨.MARK_READ, [.delta (.markRead d)]⟩)
  | .markUnread d => .ok (some ⟨.MARK_UNREAD, [.delta (.markUnread d)]⟩)
  | .threadAction d => .ok (some ⟨.THREAD_ACTION, [.delta (.threadAction d)]⟩)
  | .threadFolderMove d => .ok (some ⟨.THREAD_FOLDER_MOVE, [.delta (.threadFolderMove d)]⟩)
  | .threadDelete d => .ok (some ⟨.THREAD_DELETE, [.delta (.threadDelete d)]⟩)
  | .threadMuteSettings d => .ok (some ⟨.THREAD_MUTE_SETTINGS, [.delta (.threadMuteSettings d)]⟩)
  | .adminText d =>
    if containsSub "remove_admin".data (pyRepr d.untypedData).data ||
        !(AllAdminText.contains d.type) then
      .ok none
    else
      match admin_text_to_event d.type with
      | none => .error "KeyError in admin_text_to_event"
      | some ev =>
        match get_decoder ev with
        | none => .error "KeyError in get_decoder"
        | some dec => do
          let decoded ← dec d.untypedData
          .ok (some ⟨ev, [.adminDecoded decoded, .metadata d.messageMetadata]⟩)
  | .noOp => .ok none
  | .markFolderSeen _ => .ok none
  | .joinableMode _ => .ok none
  | .forcedFetch _ => .ok none

/-- `MessageParser.parse_deltas` (parser.py:513-595): the body with its
`except Exception` wrapper, which re-raises every failure as
`ParsingError`. -/
def parse_deltas (d : Delta) : Dec (Option ParsedEvent) :=
  match parse_deltas_body d with
  | .ok r => .ok r
  | .error e => .error ("ParsingError: failed to parse and dispatch delta: " ++ e)

/-- `MessageParser.parse_t_ms` (parser.py:361-364).  The debug log on
line 362 decodes the payload unconditionally, so a malformed payload
raises there; then the typed `delta_decoder` runs.  The result is the
decoded delta list; the per-delta `parse_deltas` generator is consumed
by the caller's loop (`collect_t_ms_events`). -/
def parse_t_ms (payload : String) : Dec (List Delta) := do
  let _ ← parse_json payload
  let j ← parse_json payload
  decodeDeltaWrapper j

/-- The `for e in eventData` loop of `Client._handle_mqtt_messages`
(client.py:205-207): events are enqueued in order as the generator is
consumed; a `parse_deltas` exception aborts the loop (it is caught and
logged at client.py:208-209), keeping the events enqueued before it;
`None` results are skipped. -/
def collect_t_ms_events : List Delta → List ParsedEvent
  | [] => []
  | d :: rest =>
    match parse_deltas d with
    | .error _ => []
    | .ok none => collect_t_ms_events rest
    | .ok (some e) => e :: collect_t_ms_events rest

/-- The `FacebookNotifications` tagged union
(models/notifications.py), tag field `type`. -/
inductive FBNotification where
  | frqList (friend_requests new_friend_request : Int)
  | friendUpdated (from_user : Int)
  | frqState (user_id : Int) (action : String)
  | poke (user_poked poke_time : Int)
  | frqSeen
  | notifSeen
  | navUpdate
  | confirmedFriend
deriving DecidableEq, Repr

/-- `msgspec` tag-dispatched decode of `FacebookNotifications`. -/
def decodeNotification (j : Json) : Dec FBNotification := do
  let m ← asObj j
  match jGet m "type" with
  | some (.str tag) =>
    if tag = "mobile_requests_count" then do
      let fr ← reqField m "num_unread" decInt
      let nfr ← reqField m "num_unseen" decInt
      .ok (.frqList fr nfr)
    else if tag = "jewel_requests_remove_old" then do
      let fu ← reqField m "from" decInt
      .ok (.friendUpdated fu)
    else if tag = "friending_state_change" then do
      let uid ← reqField m "userid" decInt
      let act ← reqField m "action" decStr
      .ok (.frqState uid act)
    else if tag = "live_poke" then do
      let up ← reqField m "poke_source" decInt
      let pt ← reqField m "poke_time" decInt
      .ok (.poke up pt)
    else if tag = "friend_requests_seen" then .ok .frqSeen
    else if tag = "notifications_seen" then .ok .notifSeen
    else if tag = "nav_update_counts" then .ok .navUpdate
    else if tag = "jewel_friending_notifs" then .ok .confirmedFriend
    else .error ("unknown notification tag " ++ tag)
  | some _ => .error "type tag is not a string"
  | none => .error "missing type tag"

/-- `MessageParser.parse_notifications` (parser.py:503-511): only three
of the union's shapes produce an event; the rest fall through to
`None`. -/
def parse_notifications : FBNotification → Option ParsedEvent
  | .frqList a b => some ⟨.FRIEND_REQUEST_LIST_UPDATE, [.frqList a b]⟩
  | .frqState u a => some ⟨.FRIEND_REQUEST_CHANGE, [.frqState u a]⟩
  | .poke u t => some ⟨.POKE_NOTIFICATION, [.poke u t]⟩
  | _ => none

/-- `FirstFetch` (models/deltas/delta_wrapper.py:66-69). -/
def decodeFirstFetch (j : Json) : Dec Unit := do
  let m ← asObj j
  let _ ← reqField m "firstDeltaSeqId" decInt
  let _ ← reqField m "queueEntityId" decInt
  let _ ← reqField m "syncToken" decStr
  .ok ()

/-- `MessageParser.parse_all` (parser.py:368-389).  The debug log on
line 369 decodes the payload unconditionally, so every branch begins
with a full JSON decode.  The `/legacy_web` guard calls `filter(...)`
without consuming it — a `filter` object is always truthy, so the
branch fires on the topic alone.  Unknown topics log (decoding the
payload again) and produce nothing. -/
def parse_all (topic payload : String) : Dec (Option ParsedEvent) := do
  let j ← parse_json payload
  if (topic = "/thread_typing" && containsSub "\"type\":\"typ\"".data payload.data) ||
      topic = "/orca_typing_notifications" then do
    let t ← decodeTyping j
    .ok (some ⟨.TYPING, [.typing t]⟩)
  else if topic = "/orca_presence" && containsSub "\"list_type\"".data payload.data then do
    let p ← decodePresence j
    .ok (some ⟨.PRESENCE, [.presence p]⟩)
  else if topic = "/legacy_web" then do
    let n ← decodeNotification j
    .ok (parse_notifications n)
  else if containsSub "\"syncToken\":\"1\"".data payload.data then do
    let _ ← decodeFirstFetch j
    .ok none
  else .ok none

/-- The observable outcome of `Client._handle_mqtt_messages` on one
frame: the events enqueued, the correlator's pending map afterwards,
and the id of the waiter resolved (if the frame was a reply). -/
structure HandlerOut where
  events : List ParsedEvent
  pending : List Int
  resolved : Option Int
deriving Repr

/-- Decode of the `/ls_resp` envelope (`Decoder(type=LSResp)`,
client.py:84,196). -/
def decodeLSResp (payload : String) : Dec Correlator.LSResp := do
  let j ← parse_json payload
  let m ← asObj j
  let rid ← reqField m "request_id" decInt
  let pl ← reqField m "payload" decStr
  .ok ⟨rid, pl⟩

/-- The branch structure of `Client._handle_mqtt_messages`
(client.py:191-216) before its outer `except`: the `/ls_resp`
correlation branch, the `/t_ms` delta branch with its inner
`try/except` (client.py:203-209), and the `parse_all` fallthrough. -/
def handle_inner (topic payload : String) (pending : List Int) : Dec HandlerOut :=
  if topic = "/ls_resp" then do
    let r ← decodeLSResp payload
    let pr := Correlator.handle_response pending r
    .ok ⟨[], pr.1, pr.2⟩
  else if topic = "/t_ms" && containsSub "deltas".data payload.data then
    match parse_t_ms payload with
    | .error _ => .ok ⟨[], pending, none⟩
    | .ok ds => .ok ⟨collect_t_ms_events ds, pending, none⟩
  else do
    let ev ← parse_all topic payload
    .ok ⟨ev.toList, pending, none⟩

/-- `Client._handle_mqtt_messages` (client.py:191-216): the outer
`except Exception` logs and swallows every failure, so the handler
always returns normally to the frame-receive loop. -/
def handle_mqtt_messages (topic payload : String) (pending : List Int) : HandlerOut :=
  match handle_inner topic payload pending with
  | .ok r => r
  | .error _ => ⟨[], pending, none⟩

/-! ## Fetch-style decoding (`models/user.py`, `messenger/client.py`) -/

/-- Python dict item access with `KeyError` semantics. -/
def kGet (v : Json) (k : String) : Dec Json :=
  match v with
  | .obj m =>
    match jGet m k with
    | some x => .ok x
    | none => .error ("KeyError: " ++ k)
  | _ => .error "TypeError: not subscriptable"

/-- The `GENDERS` table (models/user.py:10-28), keyed by int or
string. -/
def gendersKey : Json → Option String
  | .num 0 => some "unknown"
  | .num 1 => some "female"
  | .num 2 => some "male"
  | .num 3 => some "female"
  | .num 4 => some "male"
  | .num 5 => some "mixed"
  | .num 6 => some "neuter"
  | .num 7 => some "unknown"
  | .num 8 => some "female_plural"
  | .num 9 => some "male_plural"
  | .num 10 => some "neuter_plural"
  | .num 11 => some "unknown_plural"
  | .str "UNKNOWN" => some "unknown"
  | .str "FEMALE" => some "female_singular"
  | .str "MALE" => some "male_singular"
  | .str "NEUTER" => some "neuter_singular"
  | _ => none

/-- `User` (models/user.py:32-53) as `_parse_user` constructs it: the
constructor does not validate, so fields keep their raw decoded
values; `gender` is the looked-up `GENDERS` string. -/
structure User where
  id : Json
  name : Json
  first_name : Json
  username : Json
  gender : String
  url : Json
  is_friend : Json
  is_blocked : Json
  image : Json
  alternate_name : Json
deriving Repr

/-- The reduced-field `User(...)` call in the `else` branch of
`_parse_user` (models/user.py:90-100). -/
def parse_user_fallback (v : Json) (id : Json) : Dec User := do
  let name ← kGet v "name"
  let fn ← kGet v "firstName"
  let van ←
    match v with
    | .obj m => match jGet m "vanity" with
      | some x => pure x
      | none => pure (Json.str "")
    | _ => .error "TypeError: not subscriptable"
  .ok ⟨id, name, fn, van, "unknown", .str "", .bool false, .bool false, .null, .null⟩

/-- `_parse_user` (models/user.py:75-104).  Both `except` clauses raise
`ParsingError`, so every failure of the body is a `ParsingError`. -/
def parse_user (v : Json) : Dec User := do
  let id ← kGet v "id"
  if jsonTruthy id then do
    let url ← kGet v "url"
    if jsonTruthy url then do
      let name ← kGet v "name"
      let fn ← kGet v "firstName"
      let van ← kGet v "vanity"
      let g ← kGet v "gender"
      let gs ← match gendersKey g with
        | some s => pure s
        | none => .error "KeyError in GENDERS"
      let uri ← kGet v "uri"
      let isf ← kGet v "is_friend"
      let isb ← kGet v "is_blocked"
      let img ← kGet v "thumbSrc"
      let alt ← kGet v "alternateName"
      .ok ⟨id, name, fn, van, gs, uri, isf, isb, img, alt⟩
    else parse_user_fallback v id
  else parse_user_fallback v id

/-- A raised Python exception, split by whether it is a
`ParsingError`. -/
inductive PyErr where
  | parsing (msg : String)
  | other (msg : String)
deriving DecidableEq, Repr

/-- `parse_user_graphql` (models/user.py:67-72): JSON-decode the
payload, then parse every entry of its `payload` dict through
`_parse_user`.  Failures of `_parse_user` are `ParsingError`s; the
decode itself and the `["payload"]` access raise other exception
types. -/
def parse_user_graphql (payload : String) : Except PyErr (List (String × User)) := do
  let j ← (parse_json payload).mapError PyErr.other
  let pj ← (kGet j "payload").mapError PyErr.other
  let m ← (asObj pj).mapError PyErr.other
  m.mapM fun kv => ((parse_user kv.2).mapError PyErr.parsing).map fun u => (kv.1, u)

/-- An error surfaced by `MessengerClient.fetch_user_info` to its
caller. -/
inductive FetchErr where
  | parsingError (msg : String)
  | apiError (msg : String)
deriving DecidableEq, Repr

/-- The parse/propagation structure of `MessengerClient.fetch_user_info`
(messenger/client.py:226-248), applied to the already-sliced response
body: a `ParsingError` from the user parser is logged and re-raised to
the caller; any other failure is wrapped in `APIError`. -/
def fetch_user_info (raw : String) : Except FetchErr (List (String × User)) :=
  match parse_user_graphql raw with
  | .ok u => .ok u
  | .error (.parsing m) => .error (.parsingError m)
  | .error (.other m) => .error (.apiError m)

/-- The concrete main-delta-topic frame of the end-to-end scenario: a
`NewMessage` delta with `threadKey` wrapped as a document and body
`"hi"`. -/
def c5payload : String :=
  "\x7b\"deltas\": [\x7b\"class\": \"NewMessage\", \"messageMetadata\": \x7b\"messageId\": \"mid.1\", \"actorFbId\": 555, \"folderId\": \x7b\"systemFolderId\": \"INBOX\"\x7d, \"timestamp\": \"1700000000000\", \"threadKey\": \x7b\"threadFbId\": \"123\"\x7d\x7d, \"body\": \"hi\"\x7d]\x7d"

/-! ## Theorems -/

/-- The fuel-based `while` loop, run with fuel equal to the chain
depth, exits with the chain end. -/
theorem unwrap_loop_eq_chainEnd (j : Json) :
    unwrap_loop (chainDepth j) j = some (chainEnd j) := by
  induction j using unwrap_to_str.induct with
  | case1 k v tail ih =>
    rw [chainDepth, chainEnd]
    rw [unwrap_loop]
    simpa [firstValue?] using ih
  | case2 s => simp [chainDepth, chainEnd, unwrap_loop, firstValue?]
  | case3 => simp [chainDepth, chainEnd, unwrap_loop, firstValue?]
  | case4 j h1 h2 h3 =>
    match j with
    | .obj ((k, v) :: tail) => exact absurd rfl (h1 k v tail)
    | .obj [] => simp [chainDepth, chainEnd, unwrap_loop, firstValue?]
    | .str s => simp [chainDepth, chainEnd, unwrap_loop, firstValue?]
    | .null => simp [chainDepth, chainEnd, unwrap_loop, firstValue?]
    | .bool b => simp [chainDepth, chainEnd, unwrap_loop, firstValue?]
    | .num n => simp [chainDepth, chainEnd, unwrap_loop, firstValue?]
    | .arr xs => simp [chainDepth, chainEnd, unwrap_loop, firstValue?]

/-- The chain end is never a non-empty dict: the loop guard fails
there. -/
theorem firstValue_chainEnd (j : Json) : firstValue? (chainEnd j) = none := by
  induction j using unwrap_to_str.induct with
  | case1 k v tail ih => rw [chainEnd]; exact ih
  | case2 s => simp [chainEnd, firstValue?]
  | case3 => simp [chainEnd, firstValue?]
  | case4 j h1 h2 h3 =>
    match j with
    | .obj ((k, v) :: tail) => exact absurd rfl (h1 k v tail)
    | .obj [] => simp [chainEnd, firstValue?]
    | .str s => simp [chainEnd, firstValue?]
    | .null => simp [chainEnd, firstValue?]
    | .bool b => simp [chainEnd, firstValue?]
    | .num n => simp [chainEnd, firstValue?]
    | .arr xs => simp [chainEnd, firstValue?]

/-- The recursive `unwrap_to_str` agrees with finishing at the chain
end. -/
theorem unwrap_to_str_eq_finish (j : Json) :
    unwrap_to_str j = unwrap_finish (chainEnd j) := by
  induction j using unwrap_to_str.induct with
  | case1 k v tail ih => rw [chainEnd, unwrap_to_str]; exact ih
  | case2 s => simp [chainEnd, unwrap_to_str, unwrap_finish]
  | case3 => simp [chainEnd, unwrap_to_str, unwrap_finish]
  | case4 j h1 h2 h3 =>
    match j with
    | .obj ((k, v) :: tail) => exact absurd rfl (h1 k v tail)
    | .obj [] => simp [chainEnd, unwrap_to_str, unwrap_finish]
    | .str s => simp [chainEnd, unwrap_to_str, unwrap_finish]
    | .null => simp [chainEnd, unwrap_to_str, unwrap_finish]
    | .bool b => simp [chainEnd, unwrap_to_str, unwrap_finish]
    | .num n => simp [chainEnd, unwrap_to_str, unwrap_finish]
    | .arr xs => simp [chainEnd, unwrap_to_str, unwrap_finish]

/-- C9: the generic unwrapping of double-encoded fields is total: on
every finite JSON-decoded value the `while` loop of `unwrap_to_str`
terminates (within `chainDepth` steps, the length of the first-value
chain, which is well-founded) and the function returns a string — a
string leaf as-is, a `None` leaf as `""`, any other leaf through
Python `str` — and the `extract_value` hook normalizes both observed
encodings of a `Value`-typed field (plain string, wrapped document)
through it. -/
theorem C9_unwrap_to_str_total :
    (∀ j : Json, unwrap_loop (chainDepth j) j = some (chainEnd j) ∧
      firstValue? (chainEnd j) = none ∧
      unwrap_to_str j = unwrap_finish (chainEnd j)) ∧
    (∀ s, unwrap_to_str (.str s) = s) ∧
    unwrap_to_str .null = "" ∧
    (∀ n : Int, unwrap_to_str (.num n) = toString n) ∧
    (∀ b, unwrap_to_str (.bool b) = cond b "True" "False") ∧
    (∀ s, extract_value_Value (.str s) = some s) ∧
    (∀ m, extract_value_Value (.obj m) = some (unwrap_to_str (.obj m))) := by
  refine ⟨fun j => ⟨unwrap_loop_eq_chainEnd j, firstValue_chainEnd j,
      unwrap_to_str_eq_finish j⟩, fun s => ?_, ?_, fun n => ?_, fun b => ?_,
      fun s => ?_, fun m => ?_⟩
  · simp [unwrap_to_str]
  · simp [unwrap_to_str]
  · simp [unwrap_to_str, pyRepr]
  · simp [unwrap_to_str, pyRepr]
  · simp [extract_value_Value, unwrap_to_str]
  · simp [extract_value_Value]

/-- `extract_meta` is idempotent in the cursor for a fixed frame. -/
theorem extract_meta_idem (c : Cursor) (ids : FrameIds) :
    extract_meta (extract_meta c ids) ids = extract_meta c ids := by
  unfold extract_meta
  cases h1 : truthyNat ids.lastIssuedSeqId <;>
    cases h2 : truthyNat ids.firstDeltaSeqId <;>
      cases h3 : truthyStr ids.syncToken <;>
        simp [Option.orElse, h1, h2, h3]

/-- The listen-loop cursor step is idempotent on a fixed frame. -/
theorem listen_cursor_step_idem (c : Cursor) (raw : List Char) :
    listen_cursor_step (listen_cursor_step c raw) raw = listen_cursor_step c raw := by
  by_cases h : (containsSub "lastIssuedSeqId".data raw ||
      containsSub "firstDeltaSeqId".data raw || containsSub "syncToken".data raw) = true
  · simp only [listen_cursor_step, extract_meta_raw, h, if_true]
    exact extract_meta_idem c (scanFrame raw)
  · simp [listen_cursor_step, h]

/-- C2 (amended): feeding the same cursor-bearing frame twice is
idempotent (so never regresses the stored `sequenceId` relative to the
first application), a *non-zero* `lastIssuedSeqId` wins over
`firstDeltaSeqId`, `firstDeltaSeqId` (non-zero) is used when
`lastIssuedSeqId` is absent *or zero*, and a freshly observed
*non-empty* `syncToken` always overwrites the stored one.  (Python
truthiness makes the code treat a zero `lastIssuedSeqId` /
`firstDeltaSeqId` and an empty token as absent; the regexes only ever
produce non-empty tokens, but a zero sequence number is matched.) -/
theorem C2_cursor_update_amended :
    (∀ c raw, listen_cursor_step (listen_cursor_step c raw) raw = listen_cursor_step c raw) ∧
    (∀ c ids, extract_meta (extract_meta c ids) ids = extract_meta c ids) ∧
    (∀ c ids l, ids.lastIssuedSeqId = some l → l ≠ 0 →
      (extract_meta c ids).sequence_id = l) ∧
    (∀ c ids f, (ids.lastIssuedSeqId = none ∨ ids.lastIssuedSeqId = some 0) →
      ids.firstDeltaSeqId = some f → f ≠ 0 → (extract_meta c ids).sequence_id = f) ∧
    (∀ c ids t, ids.syncToken = some t → t ≠ "" →
      (extract_meta c ids).sync_token = some t) := by
  refine ⟨listen_cursor_step_idem, extract_meta_idem, ?_, ?_, ?_⟩
  · intro c ids l hl hne
    simp [extract_meta, hl, truthyNat, hne, Option.orElse]
  · intro c ids f hl hf hne
    rcases hl with h | h <;>
      simp [extract_meta, h, hf, truthyNat, hne, Option.orElse]
  · intro c ids t ht hne
    simp [extract_meta, ht, truthyStr, hne, Option.orElse]

/-- Witness for the amended C2 theorem at concrete frames. -/
theorem C2_cursor_update_amended_witness :
    (extract_meta ⟨1, none⟩ ⟨some 7, some 9, some "tok"⟩).sequence_id = 9 ∧
    (extract_meta ⟨1, some "old"⟩ ⟨some 7, none, some "tok"⟩).sequence_id = 7 ∧
    (extract_meta ⟨1, some "old"⟩ ⟨none, none, some "tok"⟩).sync_token = some "tok" :=
  ⟨C2_cursor_update_amended.2.2.1 ⟨1, none⟩ ⟨some 7, some 9, some "tok"⟩ 9 rfl
      (by decide),
   C2_cursor_update_amended.2.2.2.1 ⟨1, some "old"⟩ ⟨some 7, none, some "tok"⟩ 7
      (Or.inl rfl) rfl (by decide),
   C2_cursor_update_amended.2.2.2.2 ⟨1, some "old"⟩ ⟨none, none, some "tok"⟩ "tok"
      rfl (by decide)⟩

/-- C2 counterexample: a frame carrying both `"lastIssuedSeqId": 0` and
`"firstDeltaSeqId": 7` — both markers present — does *not* let the
`lastIssuedSeqId` value win: Python `or` treats the zero as absent and
stores 7. -/
theorem C2_counterexample :
    scanFrame c2raw = ⟨some 7, some 0, none⟩ ∧
    (listen_cursor_step ⟨100, none⟩ c2raw).sequence_id = 7 ∧ (7 : Nat) ≠ 0 := by
  refine ⟨by decide, by decide, by decide⟩

/-- C4: after every successful connect exactly one bootstrap control
message is published; with no stored syncToken it is the create-queue
message carrying exactly `sync_api_version`,
`max_deltas_able_to_process`, `delta_batch_size`, `encoding`,
`entity_fbid`, `initial_titan_sequence_id` (the current sequenceId as a
string) and `device_params: null`; otherwise the get-diffs message with
the same common fields plus `last_seq_id` and `sync_token`. -/
theorem C4_bootstrap_publish (conn : Bool) (uid : String) (c : Cursor)
    (h : conn = true) :
    (connect_publishes conn uid c).length = 1 ∧
    (c.sync_token = none → connect_publishes conn uid c =
      [("/messenger_sync_create_queue",
        [("sync_api_version", PValue.num 10),
         ("max_deltas_able_to_process", PValue.num 1000),
         ("delta_batch_size", PValue.num 500),
         ("encoding", PValue.str "JSON"),
         ("entity_fbid", PValue.str uid),
         ("initial_titan_sequence_id", PValue.str (toString c.sequence_id)),
         ("device_params", PValue.null)])]) ∧
    (∀ t, c.sync_token = some t → connect_publishes conn uid c =
      [("/messenger_sync_get_diffs",
        [("sync_api_version", PValue.num 10),
         ("max_deltas_able_to_process", PValue.num 1000),
         ("delta_batch_size", PValue.num 500),
         ("encoding", PValue.str "JSON"),
         ("entity_fbid", PValue.str uid),
         ("last_seq_id", PValue.str (toString c.sequence_id)),
         ("sync_token", PValue.str t)])]) := by
  subst h
  obtain ⟨seq, tok⟩ := c
  cases tok <;> simp [connect_publishes, messenger_queue_publish]

/-- Witness for C4 at a concrete connected session in each cursor
mode. -/
theorem C4_bootstrap_publish_witness :
    connect_publishes true "42" ⟨5, none⟩ =
      [("/messenger_sync_create_queue",
        [("sync_api_version", PValue.num 10),
         ("max_deltas_able_to_process", PValue.num 1000),
         ("delta_batch_size", PValue.num 500),
         ("encoding", PValue.str "JSON"),
         ("entity_fbid", PValue.str "42"),
         ("initial_titan_sequence_id", PValue.str (toString (5 : Nat))),
         ("device_params", PValue.null)])] ∧
    connect_publishes true "42" ⟨6, some "tok"⟩ =
      [("/messenger_sync_get_diffs",
        [("sync_api_version", PValue.num 10),
         ("max_deltas_able_to_process", PValue.num 1000),
         ("delta_batch_size", PValue.num 500),
         ("encoding", PValue.str "JSON"),
         ("entity_fbid", PValue.str "42"),
         ("last_seq_id", PValue.str (toString (6 : Nat))),
         ("sync_token", PValue.str "tok")])] :=
  ⟨(C4_bootstrap_publish true "42" ⟨5, none⟩ rfl).2.1 rfl,
   (C4_bootstrap_publish true "42" ⟨6, some "tok"⟩ rfl).2.2 "tok" rfl⟩

/-- C6 counterexample: a reconnect attempt whose new connection is not
established leaves the stored syncToken untouched — the reconnect did
*not* clear it; and on a successful reconnect the clearing happens
*after* the transport is rebuilt, not before. -/
theorem C6_counterexample :
    (reconnect ⟨100, some "tok", true, false⟩ "u" 200 false).state.sync_token =
      some "tok" ∧
    (reconnect ⟨100, some "tok", true, false⟩ "u" 200 true).trace.indexOf
        RAct.build_new_client <
      (reconnect ⟨100, some "tok", true, false⟩ "u" 200 true).trace.indexOf
        RAct.clear_sync_token := by
  refine ⟨by decide, by decide⟩

/-- C6 (amended): every reconnect re-fetches the sequenceId via the
HTTP baseline call before rebuilding the transport; on a reconnect
whose connection succeeds the syncToken is cleared (after the
transport is rebuilt, before the bootstrap publish), so the
post-reconnect bootstrap is always the full create-queue form; a
reconnect whose connection fails publishes no bootstrap, does not
restart the listen loop, and leaves the syncToken as it was. -/
theorem C6_reconnect_amended (st : MqttState) (uid : String) (ns : Nat)
    (conn : Bool) :
    ((reconnect st uid ns conn).trace.indexOf RAct.fetch_sequence_id <
      (reconnect st uid ns conn).trace.indexOf RAct.build_new_client) ∧
    (reconnect st uid ns conn).state.sequence_id = ns ∧
    (conn = true → (reconnect st uid ns conn).state.sync_token = none ∧
      (reconnect st uid ns conn).published =
        [messenger_queue_publish uid ⟨ns, none⟩] ∧
      (messenger_queue_publish uid ⟨ns, none⟩).1 = "/messenger_sync_create_queue") ∧
    (conn = false → (reconnect st uid ns conn).state.sync_token = st.sync_token ∧
      (reconnect st uid ns conn).published = [] ∧
      RAct.start_listen_task ∉ (reconnect st uid ns conn).trace) := by
  cases conn <;>
    refine ⟨by simp only [reconnect, Bool.false_eq_true, if_false, if_true]; decide,
      rfl, ?_, ?_⟩ <;>
      simp [reconnect, messenger_queue_publish]

/-- Witness for the amended C6 theorem at a concrete session state. -/
theorem C6_reconnect_amended_witness :
    (reconnect ⟨100, some "tok", true, false⟩ "u" 200 true).state.sync_token = none ∧
    (reconnect ⟨100, some "tok", true, false⟩ "u" 200 false).published = [] :=
  ⟨((C6_reconnect_amended ⟨100, some "tok", true, false⟩ "u" 200 true).2.2.1 rfl).1,
   ((C6_reconnect_amended ⟨100, some "tok", true, false⟩ "u" 200 false).2.2.2 rfl).2.1⟩

/-- The dispatch loop equals its spec-side description: it invokes
listeners up to and including the first one that returns normally, and
reports whether one did. -/
theorem runListeners_spec (ls : List (Nat × EventDispatcher.ListenerBeh)) :
    EventDispatcher.runListeners ls =
      (EventDispatcher.invokedUntilFirstOk ls, EventDispatcher.anyOk ls) := by
  induction ls with
  | nil => rfl
  | cons p rest ih =>
    obtain ⟨i, b⟩ := p
    cases b <;>
      simp [EventDispatcher.runListeners, EventDispatcher.invokedUntilFirstOk,
        EventDispatcher.anyOk, ih, List.any]

/-- C1 (amended): dispatching an event invokes the registered listeners
in registration order only up to and including the first listener that
returns normally (a listener that raises is caught and logged and the
next listener is tried); the convention-based `on_<kind>` fallback is
invoked exactly when no registered listener returned normally — also
when explicit listeners were registered but all of them raised — and it
exists. -/
theorem C1_dispatch_amended (ls : List (Nat × EventDispatcher.ListenerBeh))
    (fb : Bool) :
    (EventDispatcher.dispatch (some ls) fb).invoked =
      EventDispatcher.invokedUntilFirstOk ls ∧
    (EventDispatcher.dispatch (some ls) fb).fallback_invoked =
      (fb && !(EventDispatcher.anyOk ls)) ∧
    EventDispatcher.dispatch none fb = ⟨[], fb⟩ := by
  refine ⟨?_, ?_, rfl⟩ <;>
    · simp only [EventDispatcher.dispatch, runListeners_spec]
      cases h : EventDispatcher.anyOk ls <;> simp [h]

/-- C1 counterexample: with two listeners registered for a kind, both
returning normally, dispatch invokes only the first — not every
registered listener; and with one registered listener that raises, the
`on_<kind>` fallback *is* invoked even though an explicit listener was
registered. -/
theorem C1_counterexample :
    (EventDispatcher.dispatch
        (some [(0, .ok), (1, .ok)]) true).invoked ≠ [0, 1] ∧
    (EventDispatcher.dispatch (some [(0, .ok), (1, .ok)]) true).invoked = [0] ∧
    (EventDispatcher.dispatch (some [(2, .raises)]) true).fallback_invoked = true := by
  refine ⟨by decide, by decide, by decide⟩

/-- C3: a request that sees no reply carrying its id before the timeout
raises a timeout to the caller and leaves no waiter for its id in the
pending map; and a frame on the response topic whose id has no pending
waiter leaves the map unchanged and resolves no caller. -/
theorem C3_correlator_timeout_and_discard :
    (∀ (pending : List Int) (rid : Int) (att : Bool), rid ∉ pending →
      (Correlator.send_request pending rid att none).result = .timeout ∧
      rid ∉ (Correlator.send_request pending rid att none).pending_after) ∧
    (∀ (pending : List Int) (resp : Correlator.LSResp), resp.request_id ∉ pending →
      Correlator.handle_response pending resp = (pending, none)) := by
  constructor
  · intro pending rid att h
    refine ⟨rfl, ?_⟩
    simp only [Correlator.send_request]
    rw [List.erase_append_right _ h]
    simp [h]
  · intro pending resp h
    simp [Correlator.handle_response, h]

/-- Witness for C3 at a concrete pending map. -/
theorem C3_correlator_timeout_and_discard_witness :
    (Correlator.send_request [3] 7 true none).result = .timeout ∧
    (7 : Int) ∉ (Correlator.send_request [3] 7 true none).pending_after ∧
    Correlator.handle_response [3] ⟨9, "x"⟩ = ([3], none) :=
  ⟨(C3_correlator_timeout_and_discard.1 [3] 7 true (by decide)).1,
   (C3_correlator_timeout_and_discard.1 [3] 7 true (by decide)).2,
   C3_correlator_timeout_and_discard.2 [3] ⟨9, "x"⟩ (by decide)⟩

/-- C10: a correlated request sent while no MQTT transport is attached
is never published, yet its waiter is registered in the pending map for
the duration of the wait; with no reply arriving the caller gets the
timeout error after the full wait, and the pending map no longer holds
the id afterwards. -/
theorem C10_send_without_transport (pending : List Int) (rid : Int)
    (h : rid ∉ pending) :
    (Correlator.send_request pending rid false none).published = false ∧
    rid ∈ (Correlator.send_request pending rid false none).pending_during_wait ∧
    (Correlator.send_request pending rid false none).result = .timeout ∧
    rid ∉ (Correlator.send_request pending rid false none).pending_after := by
  refine ⟨rfl, ?_, rfl, ?_⟩
  · simp [Correlator.send_request]
  · simp only [Correlator.send_request]
    rw [List.erase_append_right _ h]
    simp [h]

/-- Witness for C10 at a concrete pending map. -/
theorem C10_send_without_transport_witness :
    (Correlator.send_request [3] 7 false none).published = false ∧
    (7 : Int) ∈ (Correlator.send_request [3] 7 false none).pending_during_wait ∧
    (Correlator.send_request [3] 7 false none).result = .timeout ∧
    (7 : Int) ∉ (Correlator.send_request [3] 7 false none).pending_after :=
  C10_send_without_transport [3] 7 (by decide)

/-- C8 counterexample: stopping the session leaves an outstanding
correlator waiter (id 7) in the pending map — it is not failed at
shutdown — and the reconnect timer is cancelled *before* the presence
heartbeat, not after it. -/
theorem C8_counterexample :
    (stop_listening true true true [7]).2 = [7] ∧
    (stop_listening true true true []).1.indexOf StopAct.cancel_reconnect <
      (stop_listening true true true []).1.indexOf StopAct.cancel_presence := by
  refine ⟨by decide, by decide⟩

/-- C8 (amended): stopping the session cancels, in order, the
frame-receive loop, then the reconnect timer, then the presence
heartbeat, then closes the transport (then stops the realtime client);
outstanding request-correlator waiters are *not* failed at shutdown —
the pending map is left untouched and each waiter is left to hit its
own timeout. -/
theorem C8_stop_amended (pending : List Int) :
    (stop_listening true true true pending).1.indexOf StopAct.cancel_listen <
      (stop_listening true true true pending).1.indexOf StopAct.cancel_reconnect ∧
    (stop_listening true true true pending).1.indexOf StopAct.cancel_reconnect <
      (stop_listening true true true pending).1.indexOf StopAct.cancel_presence ∧
    (stop_listening true true true pending).1.indexOf StopAct.cancel_presence <
      (stop_listening true true true pending).1.indexOf StopAct.close_transport ∧
    (stop_listening true true true pending).2 = pending ∧
    (∀ i, StopAct.fail_waiter i ∉ (stop_listening true true true pending).1) := by
  refine ⟨by simp only [stop_listening, mqtt_stop, cancel_task]; decide,
    by simp only [stop_listening, mqtt_stop, cancel_task]; decide,
    by simp only [stop_listening, mqtt_stop, cancel_task]; decide, rfl, ?_⟩
  intro i
  simp [stop_listening, mqtt_stop, cancel_task]

/-- Witness for the amended C8 theorem at a concrete pending map. -/
theorem C8_stop_amended_witness :
    (stop_listening true true true [7]).2 = [7] ∧
    StopAct.fail_waiter 7 ∉ (stop_listening true true true [7]).1 :=
  ⟨(C8_stop_amended [7]).2.2.2.1, (C8_stop_amended [7]).2.2.2.2 7⟩

/-- C7: decode failures on the passive stream path are contained: a
payload that is not valid JSON produces no event on any topic, leaves
the pending map untouched, and the handler returns normally; a main
delta-topic frame whose typed delta decode fails (malformed structure
or unknown discriminant) likewise produces no event; while a
`ParsingError` raised by a fetch-style (request/response) decode is
re-raised to the caller. -/
theorem C7_stream_errors_contained :
    (∀ topic payload pending e, parse_json payload = .error e →
      handle_mqtt_messages topic payload pending =
        ⟨[], pending, none⟩) ∧
    (∀ payload pending e, containsSub "deltas".data payload.data = true →
      parse_t_ms payload = .error e →
      handle_mqtt_messages "/t_ms" payload pending = ⟨[], pending, none⟩) ∧
    (∀ raw m, parse_user_graphql raw = .error (.parsing m) →
      fetch_user_info raw = .error (.parsingError m)) := by
  refine ⟨?_, ?_, ?_⟩
  · intro topic payload pending e h
    unfold handle_mqtt_messages handle_inner
    by_cases h1 : topic = "/ls_resp"
    · simp only [h1, if_true, decodeLSResp, h]
      rfl
    · by_cases h2 : topic = "/t_ms" ∧ containsSub "deltas".data payload.data = true
      · simp only [if_neg h1, h2.1, h2.2, parse_t_ms, h, Bool.and_self, if_true]
        rfl
      · rcases Decidable.not_and_iff_or_not.mp h2 with h3 | h3 <;>
          · simp only [if_neg h1, h3, parse_all, h, Bool.false_and, Bool.and_false,
              Bool.and_eq_true, if_false]
            rfl
  · intro payload pending e hsub h
    unfold handle_mqtt_messages handle_inner
    simp [hsub, h]
  · intro raw m h
    simp [fetch_user_info, h]

/-- Witness for C7: a non-JSON frame on the delta topic, a frame with
an unknown delta discriminant, and a fetched user record whose parse
raises `ParsingError` (missing `name`). -/
theorem C7_stream_errors_contained_witness :
    handle_mqtt_messages "/t_ms" "@" [3] = ⟨[], [3], none⟩ ∧
    handle_mqtt_messages "/t_ms"
      "\x7b\"deltas\": [\x7b\"class\": \"Bogus\"\x7d]\x7d" [3] = ⟨[], [3], none⟩ ∧
    fetch_user_info "\x7b\"payload\": \x7b\"1\": \x7b\"id\": \"\"\x7d\x7d\x7d" =
      .error (.parsingError "KeyError: name") :=
  ⟨C7_stream_errors_contained.1 "/t_ms" "@" [3] "unexpected character" rfl,
   C7_stream_errors_contained.2.1
     "\x7b\"deltas\": [\x7b\"class\": \"Bogus\"\x7d]\x7d" [3]
     "unknown delta class tag Bogus" rfl rfl,
   C7_stream_errors_contained.2.2
     "\x7b\"payload\": \x7b\"1\": \x7b\"id\": \"\"\x7d\x7d\x7d" "KeyError: name" rfl⟩

set_option maxRecDepth 100000 in
/-- C5: a frame on the main delta topic whose delta list holds one
`NewMessage` document with `threadKey` wrapped as
`{"threadFbId": "123"}` and body `"hi"` decodes to exactly one event of
kind `MESSAGE` whose `Message` has `thread_id = "123"` (the wrapping
unwrapped to its inner string), `text = "hi"`, and `sender_id` the
string of the metadata's actor id; and in general a `NewMessage` delta
without attachments parses to one `MESSAGE` event whose message fields
come from the metadata as shown. -/
theorem C5_new_message_decode :
    ((handle_mqtt_messages "/t_ms" c5payload []).events.map
      (fun e => e.eventType) = [.MESSAGE]) ∧
    ((handle_mqtt_messages "/t_ms" c5payload []).events =
      [⟨.MESSAGE, [.message (.mk "mid.1" "hi" "555" "123" .GROUP [] .TEXT []
        .INBOX [] none 1700000000000 false false none)]⟩]) ∧
    (∀ (nm : NewMessageDelta) (ts : Int), nm.attachments = [] →
      nm.messageMetadata.timestamp.pyInt = .ok ts →
      parse_deltas (.newMessage nm) = .ok (some ⟨.MESSAGE,
        [.message (.mk nm.messageMetadata.id (nm.body.getD "")
          nm.messageMetadata.sender_id.pyStr nm.messageMetadata.thread_id .GROUP []
          .TEXT nm.mentions .INBOX nm.participants none ts
          (nm.messageMetadata.unsendType = "Can_Unsend") false none)]⟩)) := by
  refine ⟨rfl, rfl, ?_⟩
  intro nm ts h1 h2
  simp only [parse_deltas, parse_deltas_body, parse_message, ParseMsgInput.metadata,
    ParseMsgInput.body, ParseMsgInput.mentions, ParseMsgInput.participants, h1, h2,
    List.isEmpty_nil, if_true]
  rfl

/-- Witness for C5: the general no-attachment clause applied to the
concrete decoded delta of the frame. -/
theorem C5_new_message_decode_witness :
    parse_deltas (.newMessage
      ⟨⟨"mid.1", .i 555, "INBOX", .i 1700000000000, "123", "", "unknown"⟩,
        some "hi", [], [], []⟩) = .ok (some ⟨.MESSAGE,
      [.message (.mk "mid.1" "hi" "555" "123" .GROUP [] .TEXT []
        .INBOX [] none 1700000000000 false false none)]⟩) :=
  C5_new_message_decode.2.2
    ⟨⟨"mid.1", .i 555, "INBOX", .i 1700000000000, "123", "", "unknown"⟩,
      some "hi", [], [], []⟩ 1700000000000 rfl rfl

end Muqit
